import Mathlib

/-!
Verification of the rainbow-bridge-sdk-rs client library.

This development shallowly embeds the parts of the repository that the
checked claims are about:

* the Borsh binary codec discipline used for NEAR light-client execution
  proofs (`bridge-sdk/near-rpc-client/src/light_client_proof.rs`),
* the proof-normalisation conversions from the NEAR RPC views to the
  bridge-compatible canonical records,
* the fast-bridge storage-slot computation
  (`bridge-sdk/connectors/fast-bridge/src/utils.rs`) together with a
  from-first-principles Keccak-256,
* the orchestrator control flow of the EVM-coin, NEP-141 and fast-bridge
  connectors, modelled as pure functions over an explicit environment of
  RPC responses.

Machine integers are `Nat` with explicit bounds (`< 2 ^ 64`, `< 2 ^ 128`,
...); byte strings are `List Nat` with every element `< 256`; fallible
code returns `Option` / `Except`.
-/

namespace Bridge

/-- Byte strings are lists of naturals; well-formedness bounds each byte. -/
abbrev Bytes := List Nat

/-- Every element of the list is a byte value. -/
def wfBytes (bs : Bytes) : Prop := ∀ b ∈ bs, b < 256

instance : DecidablePred wfBytes := fun bs =>
  List.decidableBAll (· < 256) bs

/-! ## Borsh primitives

Borsh encodes fixed-width integers little-endian, `Vec<T>` as a 4-byte
little-endian length followed by the elements, `String` as the UTF-8 bytes
behind a 4-byte length, `Option<T>` as a tag byte `0`/`1` followed by the
payload if present, enums as a `u8` variant tag followed by the payload,
and structs as the concatenation of their fields in declaration order. -/

/-- Little-endian encoding of `n` into `w` bytes. -/
def encLE (w : Nat) (n : Nat) : Bytes :=
  match w with
  | 0 => []
  | w + 1 => n % 256 :: encLE w (n / 256)

/-- Little-endian decoding of `w` bytes off the front of the input. -/
def decLE (w : Nat) (bs : Bytes) : Option (Nat × Bytes) :=
  match w with
  | 0 => some (0, bs)
  | w + 1 =>
    match bs with
    | [] => none
    | b :: bs => (decLE w bs).map (fun p => (b + 256 * p.1, p.2))

theorem decLE_encLE (w n : Nat) (hn : n < 256 ^ w) (rest : Bytes) :
    decLE w (encLE w n ++ rest) = some (n, rest) := by
  induction w generalizing n with
  | zero =>
    interval_cases n
    simp [encLE, decLE]
  | succ w ih =>
    have hdiv : n / 256 < 256 ^ w := by
      rw [Nat.div_lt_iff_lt_mul (by norm_num)]
      calc n < 256 ^ (w + 1) := hn
        _ = 256 ^ w * 256 := by ring
    simp [encLE, decLE, ih (n / 256) hdiv, Nat.mod_add_div]

theorem encLE_wf (w n : Nat) : wfBytes (encLE w n) := by
  induction w generalizing n with
  | zero => simp [encLE, wfBytes]
  | succ w ih =>
    intro b hb
    simp only [encLE, List.mem_cons] at hb
    rcases hb with h | h
    · subst h; exact Nat.mod_lt _ (by norm_num)
    · exact ih (n / 256) b h

theorem encLE_length (w n : Nat) : (encLE w n).length = w := by
  induction w generalizing n with
  | zero => rfl
  | succ w ih => simp [encLE, ih]

/-- Borsh `u32`. -/
def encU32 (n : Nat) : Bytes := encLE 4 n

/-- Borsh `u32` decoder. -/
def decU32 (bs : Bytes) : Option (Nat × Bytes) := decLE 4 bs

/-- Borsh `u64`. -/
def encU64 (n : Nat) : Bytes := encLE 8 n

/-- Borsh `u64` decoder. -/
def decU64 (bs : Bytes) : Option (Nat × Bytes) := decLE 8 bs

/-- Borsh `u128`. -/
def encU128 (n : Nat) : Bytes := encLE 16 n

/-- Borsh `u128` decoder. -/
def decU128 (bs : Bytes) : Option (Nat × Bytes) := decLE 16 bs

theorem decU32_encU32 (n : Nat) (hn : n < 2 ^ 32) (rest : Bytes) :
    decU32 (encU32 n ++ rest) = some (n, rest) :=
  decLE_encLE 4 n (by norm_num at hn ⊢; omega) rest

theorem decU64_encU64 (n : Nat) (hn : n < 2 ^ 64) (rest : Bytes) :
    decU64 (encU64 n ++ rest) = some (n, rest) :=
  decLE_encLE 8 n (by norm_num at hn ⊢; omega) rest

theorem decU128_encU128 (n : Nat) (hn : n < 2 ^ 128) (rest : Bytes) :
    decU128 (encU128 n ++ rest) = some (n, rest) :=
  decLE_encLE 16 n (by norm_num at hn ⊢; omega) rest

/-- Borsh `u8`. -/
def encU8 (n : Nat) : Bytes := [n]

/-- Borsh `u8` decoder. -/
def decU8 (bs : Bytes) : Option (Nat × Bytes) :=
  match bs with
  | [] => none
  | b :: bs => some (b, bs)

theorem decU8_encU8 (n : Nat) (rest : Bytes) :
    decU8 (encU8 n ++ rest) = some (n, rest) := rfl

/-- Fixed-size byte array: the raw bytes, no length prefix. -/
def decBytesN (n : Nat) (bs : Bytes) : Option (Bytes × Bytes) :=
  match n with
  | 0 => some ([], bs)
  | n + 1 =>
    match bs with
    | [] => none
    | b :: bs => (decBytesN n bs).map (fun p => (b :: p.1, p.2))

theorem decBytesN_append (l : Bytes) (rest : Bytes) :
    decBytesN l.length (l ++ rest) = some (l, rest) := by
  induction l with
  | nil => rfl
  | cons b l ih => simp [decBytesN, ih]

/-- Encode a list of elements back to back (no length prefix). -/
def encElems (enc : α → Bytes) : List α → Bytes
  | [] => []
  | x :: xs => enc x ++ encElems enc xs

/-- Decode exactly `n` elements off the front of the input. -/
def decElems (dec : Bytes → Option (α × Bytes)) (n : Nat) (bs : Bytes) :
    Option (List α × Bytes) :=
  match n with
  | 0 => some ([], bs)
  | n + 1 => (dec bs).bind (fun p =>
      (decElems dec n p.2).map (fun q => (p.1 :: q.1, q.2)))

theorem decElems_encElems {α : Type} (enc : α → Bytes)
    (dec : Bytes → Option (α × Bytes)) (xs : List α)
    (h : ∀ x ∈ xs, ∀ rest, dec (enc x ++ rest) = some (x, rest))
    (rest : Bytes) :
    decElems dec xs.length (encElems enc xs ++ rest) = some (xs, rest) := by
  induction xs with
  | nil => rfl
  | cons x xs ih =>
    have hx := h x (by simp) (encElems enc xs ++ rest)
    simp [encElems, decElems, hx,
      ih (fun y hy => h y (by simp [hy]))]

/-- Borsh `Vec<T>`: 4-byte little-endian length, then the elements. -/
def encVec (enc : α → Bytes) (xs : List α) : Bytes :=
  encU32 xs.length ++ encElems enc xs

/-- Borsh `Vec<T>` decoder. -/
def decVec (dec : Bytes → Option (α × Bytes)) (bs : Bytes) :
    Option (List α × Bytes) :=
  (decU32 bs).bind (fun p => decElems dec p.1 p.2)

theorem decVec_encVec {α : Type} (enc : α → Bytes)
    (dec : Bytes → Option (α × Bytes)) (xs : List α)
    (hlen : xs.length < 2 ^ 32)
    (h : ∀ x ∈ xs, ∀ rest, dec (enc x ++ rest) = some (x, rest))
    (rest : Bytes) :
    decVec dec (encVec enc xs ++ rest) = some (xs, rest) := by
  simp [encVec, decVec, decU32_encU32 xs.length hlen,
    decElems_encElems enc dec xs h rest]

/-- Borsh `Option<T>`: tag byte `0` or `1`, then the payload if present. -/
def encOpt (enc : α → Bytes) : Option α → Bytes
  | none => [0]
  | some x => 1 :: enc x

/-- Borsh `Option<T>` decoder. -/
def decOpt (dec : Bytes → Option (α × Bytes)) (bs : Bytes) :
    Option (Option α × Bytes) :=
  match bs with
  | 0 :: bs => some (none, bs)
  | 1 :: bs => (dec bs).map (fun p => (some p.1, p.2))
  | _ => none

theorem decOpt_encOpt {α : Type} (enc : α → Bytes)
    (dec : Bytes → Option (α × Bytes)) (x : Option α)
    (h : ∀ y, x = some y → ∀ rest, dec (enc y ++ rest) = some (y, rest))
    (rest : Bytes) :
    decOpt dec (encOpt enc x ++ rest) = some (x, rest) := by
  cases x with
  | none => rfl
  | some y => simp [encOpt, decOpt, h y rfl rest]

/-- Borsh `String`: 4-byte little-endian byte length, then the UTF-8 bytes.
Strings are modelled as their UTF-8 byte lists. -/
def encStr (s : Bytes) : Bytes := encU32 s.length ++ s

/-- Borsh `String` decoder. -/
def decStr (bs : Bytes) : Option (Bytes × Bytes) :=
  (decU32 bs).bind (fun p => decBytesN p.1 p.2)

theorem decStr_encStr (s : Bytes) (hlen : s.length < 2 ^ 32) (rest : Bytes) :
    decStr (encStr s ++ rest) = some (s, rest) := by
  simp [encStr, decStr, decU32_encU32 s.length hlen, decBytesN_append]

end Bridge

namespace Bridge

/-! ## NEAR primitive types

The repository's proof records are built from `near_primitives` view types.
These leaf types are external dependencies of the repository; they are
modelled here following the `near_primitives` public Borsh schema: enums
are a `u8` variant tag followed by the payload, structs are their fields in
declaration order. -/

/-- A 32-byte hash (`near_primitives::hash::CryptoHash`). -/
abbrev CryptoHash := Bytes

/-- A `CryptoHash` is exactly 32 bytes. -/
def wfHash (h : CryptoHash) : Prop := h.length = 32

/-- Borsh for `CryptoHash`: the raw 32 bytes. -/
def encHash (h : CryptoHash) : Bytes := h

/-- Borsh decoder for `CryptoHash`. -/
def decHash (bs : Bytes) : Option (CryptoHash × Bytes) := decBytesN 32 bs

theorem decHash_encHash (h : CryptoHash) (hw : wfHash h) (rest : Bytes) :
    decHash (encHash h ++ rest) = some (h, rest) := by
  simpa [decHash, encHash, wfHash] using hw ▸ decBytesN_append h rest

/-- NEAR account identifier (`near_primitives::types::AccountId`), a string
modelled by its UTF-8 bytes. -/
abbrev AccountId := Bytes

/-- Borsh for `AccountId`: same as `String`. -/
def encAccount (a : AccountId) : Bytes := encStr a

/-- Borsh decoder for `AccountId`. -/
def decAccount (bs : Bytes) : Option (AccountId × Bytes) := decStr bs

theorem decAccount_encAccount (a : AccountId) (hw : a.length < 2 ^ 32)
    (rest : Bytes) : decAccount (encAccount a ++ rest) = some (a, rest) :=
  decStr_encStr a hw rest

/-- Merkle path direction (`near_primitives::merkle::Direction`). -/
inductive Direction where
  | left
  | right
deriving DecidableEq

/-- Borsh for `Direction`: tag `0` for `Left`, `1` for `Right`. -/
def encDirection : Direction → Bytes
  | .left => [0]
  | .right => [1]

/-- Borsh decoder for `Direction`. -/
def decDirection (bs : Bytes) : Option (Direction × Bytes) :=
  match bs with
  | 0 :: bs => some (.left, bs)
  | 1 :: bs => some (.right, bs)
  | _ => none

theorem decDirection_encDirection (d : Direction) (rest : Bytes) :
    decDirection (encDirection d ++ rest) = some (d, rest) := by
  cases d <;> rfl

/-- One step of a Merkle path (`near_primitives::merkle::MerklePathItem`):
the sibling hash and the direction. -/
structure MerklePathItem where
  hash : CryptoHash
  direction : Direction
deriving DecidableEq

/-- A Merkle path (`near_primitives::merkle::MerklePath`) is a vector of
items. -/
abbrev MerklePath := List MerklePathItem

/-- The item hash is 32 bytes. -/
def wfPathItem (i : MerklePathItem) : Prop := wfHash i.hash

/-- Borsh for `MerklePathItem`: hash, then direction. -/
def encPathItem (i : MerklePathItem) : Bytes :=
  encHash i.hash ++ encDirection i.direction

/-- Borsh decoder for `MerklePathItem`. -/
def decPathItem (bs : Bytes) : Option (MerklePathItem × Bytes) :=
  (decHash bs).bind (fun p =>
    (decDirection p.2).map (fun q => (⟨p.1, q.1⟩, q.2)))

theorem decPathItem_encPathItem (i : MerklePathItem) (hw : wfPathItem i)
    (rest : Bytes) : decPathItem (encPathItem i ++ rest) = some (i, rest) := by
  obtain ⟨h, d⟩ := i
  simp [encPathItem, decPathItem, List.append_assoc,
    decHash_encHash h hw, decDirection_encDirection]

/-- Every item hash of the path is 32 bytes and the path length fits `u32`. -/
def wfPath (p : MerklePath) : Prop :=
  p.length < 2 ^ 32 ∧ ∀ i ∈ p, wfPathItem i

/-- Borsh for `MerklePath`: a Borsh vector of items. -/
def encPath (p : MerklePath) : Bytes := encVec encPathItem p

/-- Borsh decoder for `MerklePath`. -/
def decPath (bs : Bytes) : Option (MerklePath × Bytes) := decVec decPathItem bs

theorem decPath_encPath (p : MerklePath) (hw : wfPath p) (rest : Bytes) :
    decPath (encPath p ++ rest) = some (p, rest) :=
  decVec_encVec encPathItem decPathItem p hw.1
    (fun i hi => decPathItem_encPathItem i (hw.2 i hi)) rest

/-- Cryptographic public key (`near_crypto::PublicKey`): an ED25519 key
(32 bytes, tag `0`) or a SECP256K1 key (64 bytes, tag `1`). -/
inductive PublicKey where
  | ed25519 (key : Bytes)
  | secp256k1 (key : Bytes)
deriving DecidableEq

/-- Key payload lengths per curve. -/
def wfPublicKey : PublicKey → Prop
  | .ed25519 k => k.length = 32
  | .secp256k1 k => k.length = 64

/-- Borsh for `PublicKey`: curve tag, then the fixed-size key data. -/
def encPublicKey : PublicKey → Bytes
  | .ed25519 k => 0 :: k
  | .secp256k1 k => 1 :: k

/-- Borsh decoder for `PublicKey`. -/
def decPublicKey (bs : Bytes) : Option (PublicKey × Bytes) :=
  match bs with
  | 0 :: bs => (decBytesN 32 bs).map (fun p => (.ed25519 p.1, p.2))
  | 1 :: bs => (decBytesN 64 bs).map (fun p => (.secp256k1 p.1, p.2))
  | _ => none

theorem decPublicKey_encPublicKey (k : PublicKey) (hw : wfPublicKey k)
    (rest : Bytes) : decPublicKey (encPublicKey k ++ rest) = some (k, rest) := by
  cases k with
  | ed25519 key =>
    simp only [wfPublicKey] at hw
    simp [encPublicKey, decPublicKey, hw ▸ decBytesN_append key rest]
  | secp256k1 key =>
    simp only [wfPublicKey] at hw
    simp [encPublicKey, decPublicKey, hw ▸ decBytesN_append key rest]

end Bridge

namespace Bridge

/-! ## NEAR transaction-error types

`ExecutionStatusView::Failure` carries a
`near_primitives::errors::TxExecutionError`. The enum tree below follows
the `near_primitives` public Borsh schema for those error types; variant
tags are positional. -/

/-- Contract preparation errors (`PrepareError`). -/
inductive PrepareError where
  | serializationFailed
  | deserializationFailed
  | internalMemoryDeclared
  | gasInstrumentation
  | stackHeightInstrumentation
  | instantiate
  | memory
  | tooManyFunctions
  | tooManyLocals
deriving DecidableEq

/-- Borsh for `PrepareError`: a bare variant tag. -/
def encPrepareError : PrepareError → Bytes
  | .serializationFailed => [0]
  | .deserializationFailed => [1]
  | .internalMemoryDeclared => [2]
  | .gasInstrumentation => [3]
  | .stackHeightInstrumentation => [4]
  | .instantiate => [5]
  | .memory => [6]
  | .tooManyFunctions => [7]
  | .tooManyLocals => [8]

/-- Borsh decoder for `PrepareError`. -/
def decPrepareError (bs : Bytes) : Option (PrepareError × Bytes) :=
  match bs with
  | 0 :: bs => some (.serializationFailed, bs)
  | 1 :: bs => some (.deserializationFailed, bs)
  | 2 :: bs => some (.internalMemoryDeclared, bs)
  | 3 :: bs => some (.gasInstrumentation, bs)
  | 4 :: bs => some (.stackHeightInstrumentation, bs)
  | 5 :: bs => some (.instantiate, bs)
  | 6 :: bs => some (.memory, bs)
  | 7 :: bs => some (.tooManyFunctions, bs)
  | 8 :: bs => some (.tooManyLocals, bs)
  | _ => none

theorem decPrepareError_enc (x : PrepareError) (rest : Bytes) :
    decPrepareError (encPrepareError x ++ rest) = some (x, rest) := by
  cases x <;> rfl

/-- Method resolution errors (`MethodResolveError`). -/
inductive MethodResolveError where
  | methodEmptyName
  | methodNotFound
  | methodInvalidSignature
deriving DecidableEq

/-- Borsh for `MethodResolveError`. -/
def encMethodResolveError : MethodResolveError → Bytes
  | .methodEmptyName => [0]
  | .methodNotFound => [1]
  | .methodInvalidSignature => [2]

/-- Borsh decoder for `MethodResolveError`. -/
def decMethodResolveError (bs : Bytes) : Option (MethodResolveError × Bytes) :=
  match bs with
  | 0 :: bs => some (.methodEmptyName, bs)
  | 1 :: bs => some (.methodNotFound, bs)
  | 2 :: bs => some (.methodInvalidSignature, bs)
  | _ => none

theorem decMethodResolveError_enc (x : MethodResolveError) (rest : Bytes) :
    decMethodResolveError (encMethodResolveError x ++ rest) = some (x, rest) := by
  cases x <;> rfl

/-- Wasm trap kinds (`WasmTrap`). -/
inductive WasmTrap where
  | unreachable
  | signatureMismatch
  | memoryOutOfBounds
  | callIndirectOOB
  | illegalArithmetic
  | misalignedAtomicAccess
  | indirectCallToNull
  | stackOverflow
  | genericTrap
deriving DecidableEq

/-- Borsh for `WasmTrap`. -/
def encWasmTrap : WasmTrap → Bytes
  | .unreachable => [0]
  | .signatureMismatch => [1]
  | .memoryOutOfBounds => [2]
  | .callIndirectOOB => [3]
  | .illegalArithmetic => [4]
  | .misalignedAtomicAccess => [5]
  | .indirectCallToNull => [6]
  | .stackOverflow => [7]
  | .genericTrap => [8]

/-- Borsh decoder for `WasmTrap`. -/
def decWasmTrap (bs : Bytes) : Option (WasmTrap × Bytes) :=
  match bs with
  | 0 :: bs => some (.unreachable, bs)
  | 1 :: bs => some (.signatureMismatch, bs)
  | 2 :: bs => some (.memoryOutOfBounds, bs)
  | 3 :: bs => some (.callIndirectOOB, bs)
  | 4 :: bs => some (.illegalArithmetic, bs)
  | 5 :: bs => some (.misalignedAtomicAccess, bs)
  | 6 :: bs => some (.indirectCallToNull, bs)
  | 7 :: bs => some (.stackOverflow, bs)
  | 8 :: bs => some (.genericTrap, bs)
  | _ => none

theorem decWasmTrap_enc (x : WasmTrap) (rest : Bytes) :
    decWasmTrap (encWasmTrap x ++ rest) = some (x, rest) := by
  cases x <;> rfl

/-- Host function errors (`HostError`). -/
inductive HostError where
  | badUTF16
  | badUTF8
  | gasExceeded
  | gasLimitExceeded
  | balanceExceeded
  | emptyMethodName
  | guestPanic (panicMsg : Bytes)
  | integerOverflow
  | invalidPromiseIndex (promiseIdx : Nat)
  | cannotAppendActionToJointPromise
  | cannotReturnJointPromise
  | invalidPromiseResultIndex (resultIdx : Nat)
  | invalidRegisterId (registerId : Nat)
  | iteratorWasInvalidated (iteratorIndex : Nat)
  | memoryAccessViolation
  | invalidReceiptIndex (receiptIndex : Nat)
  | invalidIteratorIndex (iteratorIndex : Nat)
  | invalidAccountId
  | invalidMethodName
  | invalidPublicKey
  | prohibitedInView (methodName : Bytes)
  | numberOfLogsExceeded (limit : Nat)
  | keyLengthExceeded (length : Nat) (limit : Nat)
  | valueLengthExceeded (length : Nat) (limit : Nat)
  | totalLogLengthExceeded (length : Nat) (limit : Nat)
  | numberPromisesExceeded (numberOfPromises : Nat) (limit : Nat)
  | numberInputDataDependenciesExceeded (numberOfInputDataDependencies : Nat)
      (limit : Nat)
  | returnedValueLengthExceeded (length : Nat) (limit : Nat)
  | contractSizeExceeded (size : Nat) (limit : Nat)
  | deprecatedHostFunction (methodName : Bytes)
  | ecrecoverError (msg : Bytes)
  | altBn128InvalidInput (msg : Bytes)
  | ed25519VerifyInvalidInput (msg : Bytes)
deriving DecidableEq

/-- String payloads fit a `u32` length and integer payloads fit `u64`. -/
def wfHostError : HostError → Prop
  | .guestPanic m => m.length < 2 ^ 32
  | .invalidPromiseIndex n => n < 2 ^ 64
  | .invalidPromiseResultIndex n => n < 2 ^ 64
  | .invalidRegisterId n => n < 2 ^ 64
  | .iteratorWasInvalidated n => n < 2 ^ 64
  | .invalidReceiptIndex n => n < 2 ^ 64
  | .invalidIteratorIndex n => n < 2 ^ 64
  | .prohibitedInView m => m.length < 2 ^ 32
  | .numberOfLogsExceeded n => n < 2 ^ 64
  | .keyLengthExceeded a b => a < 2 ^ 64 ∧ b < 2 ^ 64
  | .valueLengthExceeded a b => a < 2 ^ 64 ∧ b < 2 ^ 64
  | .totalLogLengthExceeded a b => a < 2 ^ 64 ∧ b < 2 ^ 64
  | .numberPromisesExceeded a b => a < 2 ^ 64 ∧ b < 2 ^ 64
  | .numberInputDataDependenciesExceeded a b => a < 2 ^ 64 ∧ b < 2 ^ 64
  | .returnedValueLengthExceeded a b => a < 2 ^ 64 ∧ b < 2 ^ 64
  | .contractSizeExceeded a b => a < 2 ^ 64 ∧ b < 2 ^ 64
  | .deprecatedHostFunction m => m.length < 2 ^ 32
  | .ecrecoverError m => m.length < 2 ^ 32
  | .altBn128InvalidInput m => m.length < 2 ^ 32
  | .ed25519VerifyInvalidInput m => m.length < 2 ^ 32
  | .badUTF16 => True
  | .badUTF8 => True
  | .gasExceeded => True
  | .gasLimitExceeded => True
  | .balanceExceeded => True
  | .emptyMethodName => True
  | .integerOverflow => True
  | .cannotAppendActionToJointPromise => True
  | .cannotReturnJointPromise => True
  | .memoryAccessViolation => True
  | .invalidAccountId => True
  | .invalidMethodName => True
  | .invalidPublicKey => True

/-- Borsh for `HostError`. -/
def encHostError : HostError → Bytes
  | .badUTF16 => [0]
  | .badUTF8 => [1]
  | .gasExceeded => [2]
  | .gasLimitExceeded => [3]
  | .balanceExceeded => [4]
  | .emptyMethodName => [5]
  | .guestPanic m => 6 :: encStr m
  | .integerOverflow => [7]
  | .invalidPromiseIndex n => 8 :: encU64 n
  | .cannotAppendActionToJointPromise => [9]
  | .cannotReturnJointPromise => [10]
  | .invalidPromiseResultIndex n => 11 :: encU64 n
  | .invalidRegisterId n => 12 :: encU64 n
  | .iteratorWasInvalidated n => 13 :: encU64 n
  | .memoryAccessViolation => [14]
  | .invalidReceiptIndex n => 15 :: encU64 n
  | .invalidIteratorIndex n => 16 :: encU64 n
  | .invalidAccountId => [17]
  | .invalidMethodName => [18]
  | .invalidPublicKey => [19]
  | .prohibitedInView m => 20 :: encStr m
  | .numberOfLogsExceeded n => 21 :: encU64 n
  | .keyLengthExceeded a b => 22 :: encU64 a ++ encU64 b
  | .valueLengthExceeded a b => 23 :: encU64 a ++ encU64 b
  | .totalLogLengthExceeded a b => 24 :: encU64 a ++ encU64 b
  | .numberPromisesExceeded a b => 25 :: encU64 a ++ encU64 b
  | .numberInputDataDependenciesExceeded a b => 26 :: encU64 a ++ encU64 b
  | .returnedValueLengthExceeded a b => 27 :: encU64 a ++ encU64 b
  | .contractSizeExceeded a b => 28 :: encU64 a ++ encU64 b
  | .deprecatedHostFunction m => 29 :: encStr m
  | .ecrecoverError m => 30 :: encStr m
  | .altBn128InvalidInput m => 31 :: encStr m
  | .ed25519VerifyInvalidInput m => 32 :: encStr m

/-- Payload decoder for `HostError`, given the variant tag. -/
def decHostErrorTag (t : Nat) (bs : Bytes) : Option (HostError × Bytes) :=
    if t = 0 then some (.badUTF16, bs)
    else if t = 1 then some (.badUTF8, bs)
    else if t = 2 then some (.gasExceeded, bs)
    else if t = 3 then some (.gasLimitExceeded, bs)
    else if t = 4 then some (.balanceExceeded, bs)
    else if t = 5 then some (.emptyMethodName, bs)
    else if t = 6 then (decStr bs).map (fun p => (.guestPanic p.1, p.2))
    else if t = 7 then some (.integerOverflow, bs)
    else if t = 8 then (decU64 bs).map (fun p => (.invalidPromiseIndex p.1, p.2))
    else if t = 9 then some (.cannotAppendActionToJointPromise, bs)
    else if t = 10 then some (.cannotReturnJointPromise, bs)
    else if t = 11 then (decU64 bs).map (fun p => (.invalidPromiseResultIndex p.1, p.2))
    else if t = 12 then (decU64 bs).map (fun p => (.invalidRegisterId p.1, p.2))
    else if t = 13 then (decU64 bs).map (fun p => (.iteratorWasInvalidated p.1, p.2))
    else if t = 14 then some (.memoryAccessViolation, bs)
    else if t = 15 then (decU64 bs).map (fun p => (.invalidReceiptIndex p.1, p.2))
    else if t = 16 then (decU64 bs).map (fun p => (.invalidIteratorIndex p.1, p.2))
    else if t = 17 then some (.invalidAccountId, bs)
    else if t = 18 then some (.invalidMethodName, bs)
    else if t = 19 then some (.invalidPublicKey, bs)
    else if t = 20 then (decStr bs).map (fun p => (.prohibitedInView p.1, p.2))
    else if t = 21 then (decU64 bs).map (fun p => (.numberOfLogsExceeded p.1, p.2))
    else if t = 22 then (decU64 bs).bind (fun p => (decU64 p.2).map
      (fun q => (.keyLengthExceeded p.1 q.1, q.2)))
    else if t = 23 then (decU64 bs).bind (fun p => (decU64 p.2).map
      (fun q => (.valueLengthExceeded p.1 q.1, q.2)))
    else if t = 24 then (decU64 bs).bind (fun p => (decU64 p.2).map
      (fun q => (.totalLogLengthExceeded p.1 q.1, q.2)))
    else if t = 25 then (decU64 bs).bind (fun p => (decU64 p.2).map
      (fun q => (.numberPromisesExceeded p.1 q.1, q.2)))
    else if t = 26 then (decU64 bs).bind (fun p => (decU64 p.2).map
      (fun q => (.numberInputDataDependenciesExceeded p.1 q.1, q.2)))
    else if t = 27 then (decU64 bs).bind (fun p => (decU64 p.2).map
      (fun q => (.returnedValueLengthExceeded p.1 q.1, q.2)))
    else if t = 28 then (decU64 bs).bind (fun p => (decU64 p.2).map
      (fun q => (.contractSizeExceeded p.1 q.1, q.2)))
    else if t = 29 then (decStr bs).map (fun p => (.deprecatedHostFunction p.1, p.2))
    else if t = 30 then (decStr bs).map (fun p => (.ecrecoverError p.1, p.2))
    else if t = 31 then (decStr bs).map (fun p => (.altBn128InvalidInput p.1, p.2))
    else if t = 32 then (decStr bs).map (fun p => (.ed25519VerifyInvalidInput p.1, p.2))
    else none

/-- Borsh decoder for `HostError`: tag byte, then the payload. -/
def decHostError (bs : Bytes) : Option (HostError × Bytes) :=
  (decU8 bs).bind (fun p => decHostErrorTag p.1 p.2)

theorem decHostError_enc (x : HostError) (hw : wfHostError x) (rest : Bytes) :
    decHostError (encHostError x ++ rest) = some (x, rest) := by
  cases x with
  | badUTF16 =>
    simp [encHostError, decHostError, decHostErrorTag, decU8, List.append_assoc]
  | badUTF8 =>
    simp [encHostError, decHostError, decHostErrorTag, decU8, List.append_assoc]
  | gasExceeded =>
    simp [encHostError, decHostError, decHostErrorTag, decU8, List.append_assoc]
  | gasLimitExceeded =>
    simp [encHostError, decHostError, decHostErrorTag, decU8, List.append_assoc]
  | balanceExceeded =>
    simp [encHostError, decHostError, decHostErrorTag, decU8, List.append_assoc]
  | emptyMethodName =>
    simp [encHostError, decHostError, decHostErrorTag, decU8, List.append_assoc]
  | guestPanic m =>
    simp [encHostError, decHostError, decHostErrorTag, decU8, List.append_assoc]
    exact decStr_encStr _ hw _
  | integerOverflow =>
    simp [encHostError, decHostError, decHostErrorTag, decU8, List.append_assoc]
  | invalidPromiseIndex a =>
    simp [encHostError, decHostError, decHostErrorTag, decU8, List.append_assoc]
    exact decU64_encU64 _ hw _
  | cannotAppendActionToJointPromise =>
    simp [encHostError, decHostError, decHostErrorTag, decU8, List.append_assoc]
  | cannotReturnJointPromise =>
    simp [encHostError, decHostError, decHostErrorTag, decU8, List.append_assoc]
  | invalidPromiseResultIndex a =>
    simp [encHostError, decHostError, decHostErrorTag, decU8, List.append_assoc]
    exact decU64_encU64 _ hw _
  | invalidRegisterId a =>
    simp [encHostError, decHostError, decHostErrorTag, decU8, List.append_assoc]
    exact decU64_encU64 _ hw _
  | iteratorWasInvalidated a =>
    simp [encHostError, decHostError, decHostErrorTag, decU8, List.append_assoc]
    exact decU64_encU64 _ hw _
  | memoryAccessViolation =>
    simp [encHostError, decHostError, decHostErrorTag, decU8, List.append_assoc]
  | invalidReceiptIndex a =>
    simp [encHostError, decHostError, decHostErrorTag, decU8, List.append_assoc]
    exact decU64_encU64 _ hw _
  | invalidIteratorIndex a =>
    simp [encHostError, decHostError, decHostErrorTag, decU8, List.append_assoc]
    exact decU64_encU64 _ hw _
  | invalidAccountId =>
    simp [encHostError, decHostError, decHostErrorTag, decU8, List.append_assoc]
  | invalidMethodName =>
    simp [encHostError, decHostError, decHostErrorTag, decU8, List.append_assoc]
  | invalidPublicKey =>
    simp [encHostError, decHostError, decHostErrorTag, decU8, List.append_assoc]
  | prohibitedInView m =>
    simp [encHostError, decHostError, decHostErrorTag, decU8, List.append_assoc]
    exact decStr_encStr _ hw _
  | numberOfLogsExceeded a =>
    simp [encHostError, decHostError, decHostErrorTag, decU8, List.append_assoc]
    exact decU64_encU64 _ hw _
  | keyLengthExceeded a b =>
    simp [encHostError, decHostError, decHostErrorTag, decU8, List.append_assoc]
    rw [decU64_encU64 _ hw.1]
    simp [decU64_encU64 _ hw.2]
  | valueLengthExceeded a b =>
    simp [encHostError, decHostError, decHostErrorTag, decU8, List.append_assoc]
    rw [decU64_encU64 _ hw.1]
    simp [decU64_encU64 _ hw.2]
  | totalLogLengthExceeded a b =>
    simp [encHostError, decHostError, decHostErrorTag, decU8, List.append_assoc]
    rw [decU64_encU64 _ hw.1]
    simp [decU64_encU64 _ hw.2]
  | numberPromisesExceeded a b =>
    simp [encHostError, decHostError, decHostErrorTag, decU8, List.append_assoc]
    rw [decU64_encU64 _ hw.1]
    simp [decU64_encU64 _ hw.2]
  | numberInputDataDependenciesExceeded a b =>
    simp [encHostError, decHostError, decHostErrorTag, decU8, List.append_assoc]
    rw [decU64_encU64 _ hw.1]
    simp [decU64_encU64 _ hw.2]
  | returnedValueLengthExceeded a b =>
    simp [encHostError, decHostError, decHostErrorTag, decU8, List.append_assoc]
    rw [decU64_encU64 _ hw.1]
    simp [decU64_encU64 _ hw.2]
  | contractSizeExceeded a b =>
    simp [encHostError, decHostError, decHostErrorTag, decU8, List.append_assoc]
    rw [decU64_encU64 _ hw.1]
    simp [decU64_encU64 _ hw.2]
  | deprecatedHostFunction m =>
    simp [encHostError, decHostError, decHostErrorTag, decU8, List.append_assoc]
    exact decStr_encStr _ hw _
  | ecrecoverError m =>
    simp [encHostError, decHostError, decHostErrorTag, decU8, List.append_assoc]
    exact decStr_encStr _ hw _
  | altBn128InvalidInput m =>
    simp [encHostError, decHostError, decHostErrorTag, decU8, List.append_assoc]
    exact decStr_encStr _ hw _
  | ed25519VerifyInvalidInput m =>
    simp [encHostError, decHostError, decHostErrorTag, decU8, List.append_assoc]
    exact decStr_encStr _ hw _

end Bridge

namespace Bridge


/-- NEAR contract compilation errors (`CompilationError`). -/
inductive CompilationError where
  | codeDoesNotExist (accountId : AccountId)
  | prepareError (e : PrepareError)
  | wasmerCompileError (msg : Bytes)
  | unsupportedCompiler (msg : Bytes)
deriving DecidableEq

/-- Payload bounds for `CompilationError`. -/
def wfCompilationError : CompilationError → Prop
  | .codeDoesNotExist accountId => accountId.length < 2 ^ 32
  | .prepareError _ => True
  | .wasmerCompileError msg => msg.length < 2 ^ 32
  | .unsupportedCompiler msg => msg.length < 2 ^ 32

/-- Borsh for `CompilationError`: variant tag, then the payload fields. -/
def encCompilationError : CompilationError → Bytes
  | .codeDoesNotExist accountId => 0 :: encAccount accountId
  | .prepareError e => 1 :: encPrepareError e
  | .wasmerCompileError msg => 2 :: encStr msg
  | .unsupportedCompiler msg => 3 :: encStr msg

/-- Payload decoder for `CompilationError`, given the variant tag. -/
def decCompilationErrorTag (t : Nat) (bs : Bytes) : Option (CompilationError × Bytes) :=
    if t = 0 then (decAccount bs).map (fun p => (.codeDoesNotExist p.1, p.2))
    else if t = 1 then (decPrepareError bs).map (fun p => (.prepareError p.1, p.2))
    else if t = 2 then (decStr bs).map (fun p => (.wasmerCompileError p.1, p.2))
    else if t = 3 then (decStr bs).map (fun p => (.unsupportedCompiler p.1, p.2))
    else none

/-- Borsh decoder for `CompilationError`: tag byte, then the payload. -/
def decCompilationError (bs : Bytes) : Option (CompilationError × Bytes) :=
  (decU8 bs).bind (fun p => decCompilationErrorTag p.1 p.2)

theorem decCompilationError_enc (x : CompilationError) (hw : wfCompilationError x) (rest : Bytes) :
    decCompilationError (encCompilationError x ++ rest) = some (x, rest) := by
  cases x with
  | codeDoesNotExist accountId =>
    simp [encCompilationError, decCompilationError, decCompilationErrorTag, decU8, List.append_assoc]
    exact decAccount_encAccount _ hw _
  | prepareError e =>
    simp [encCompilationError, decCompilationError, decCompilationErrorTag, decU8, List.append_assoc]
    exact decPrepareError_enc _ _
  | wasmerCompileError msg =>
    simp [encCompilationError, decCompilationError, decCompilationErrorTag, decU8, List.append_assoc]
    exact decStr_encStr _ hw _
  | unsupportedCompiler msg =>
    simp [encCompilationError, decCompilationError, decCompilationErrorTag, decU8, List.append_assoc]
    exact decStr_encStr _ hw _

/-- NEAR wasm function-call errors (`FunctionCallError`). -/
inductive FunctionCallError where
  | compilationError (e : CompilationError)
  | linkError (msg : Bytes)
  | methodResolveError (e : MethodResolveError)
  | wasmTrap (e : WasmTrap)
  | wasmUnknownError
  | hostError (e : HostError)
  | evmError
  | executionError (msg : Bytes)
deriving DecidableEq

/-- Payload bounds for `FunctionCallError`. -/
def wfFunctionCallError : FunctionCallError → Prop
  | .compilationError e => wfCompilationError e
  | .linkError msg => msg.length < 2 ^ 32
  | .methodResolveError _ => True
  | .wasmTrap _ => True
  | .wasmUnknownError => True
  | .hostError e => wfHostError e
  | .evmError => True
  | .executionError msg => msg.length < 2 ^ 32

/-- Borsh for `FunctionCallError`: variant tag, then the payload fields. -/
def encFunctionCallError : FunctionCallError → Bytes
  | .compilationError e => 0 :: encCompilationError e
  | .linkError msg => 1 :: encStr msg
  | .methodResolveError e => 2 :: encMethodResolveError e
  | .wasmTrap e => 3 :: encWasmTrap e
  | .wasmUnknownError => [4]
  | .hostError e => 5 :: encHostError e
  | .evmError => [6]
  | .executionError msg => 7 :: encStr msg

/-- Payload decoder for `FunctionCallError`, given the variant tag. -/
def decFunctionCallErrorTag (t : Nat) (bs : Bytes) : Option (FunctionCallError × Bytes) :=
    if t = 0 then (decCompilationError bs).map (fun p => (.compilationError p.1, p.2))
    else if t = 1 then (decStr bs).map (fun p => (.linkError p.1, p.2))
    else if t = 2 then (decMethodResolveError bs).map (fun p => (.methodResolveError p.1, p.2))
    else if t = 3 then (decWasmTrap bs).map (fun p => (.wasmTrap p.1, p.2))
    else if t = 4 then some (.wasmUnknownError, bs)
    else if t = 5 then (decHostError bs).map (fun p => (.hostError p.1, p.2))
    else if t = 6 then some (.evmError, bs)
    else if t = 7 then (decStr bs).map (fun p => (.executionError p.1, p.2))
    else none

/-- Borsh decoder for `FunctionCallError`: tag byte, then the payload. -/
def decFunctionCallError (bs : Bytes) : Option (FunctionCallError × Bytes) :=
  (decU8 bs).bind (fun p => decFunctionCallErrorTag p.1 p.2)

theorem decFunctionCallError_enc (x : FunctionCallError) (hw : wfFunctionCallError x) (rest : Bytes) :
    decFunctionCallError (encFunctionCallError x ++ rest) = some (x, rest) := by
  cases x with
  | compilationError e =>
    simp [encFunctionCallError, decFunctionCallError, decFunctionCallErrorTag, decU8, List.append_assoc]
    exact decCompilationError_enc _ hw _
  | linkError msg =>
    simp [encFunctionCallError, decFunctionCallError, decFunctionCallErrorTag, decU8, List.append_assoc]
    exact decStr_encStr _ hw _
  | methodResolveError e =>
    simp [encFunctionCallError, decFunctionCallError, decFunctionCallErrorTag, decU8, List.append_assoc]
    exact decMethodResolveError_enc _ _
  | wasmTrap e =>
    simp [encFunctionCallError, decFunctionCallError, decFunctionCallErrorTag, decU8, List.append_assoc]
    exact decWasmTrap_enc _ _
  | wasmUnknownError =>
    simp [encFunctionCallError, decFunctionCallError, decFunctionCallErrorTag, decU8, List.append_assoc]
  | hostError e =>
    simp [encFunctionCallError, decFunctionCallError, decFunctionCallErrorTag, decU8, List.append_assoc]
    exact decHostError_enc _ hw _
  | evmError =>
    simp [encFunctionCallError, decFunctionCallError, decFunctionCallErrorTag, decU8, List.append_assoc]
  | executionError msg =>
    simp [encFunctionCallError, decFunctionCallError, decFunctionCallErrorTag, decU8, List.append_assoc]
    exact decStr_encStr _ hw _

/-- NEAR action-list validation errors (`ActionsValidationError`). -/
inductive ActionsValidationError where
  | deleteActionMustBeFinal
  | totalPrepaidGasExceeded (totalPrepaidGas : Nat) (limit : Nat)
  | totalNumberOfActionsExceeded (totalNumberOfActions : Nat) (limit : Nat)
  | addKeyMethodNamesNumberOfBytesExceeded (totalNumberOfBytes : Nat) (limit : Nat)
  | addKeyMethodNameLengthExceeded (length : Nat) (limit : Nat)
  | integerOverflow
  | invalidAccountId (accountId : Bytes)
  | contractSizeExceeded (size : Nat) (limit : Nat)
  | functionCallMethodNameLengthExceeded (length : Nat) (limit : Nat)
  | functionCallArgumentsLengthExceeded (length : Nat) (limit : Nat)
  | unsuitableStakingKey (publicKey : PublicKey)
  | functionCallZeroAttachedGas
  | delegateActionMustBeOnlyOne
  | unsupportedProtocolFeature (protocolFeature : Bytes) (version : Nat)
deriving DecidableEq

/-- Payload bounds for `ActionsValidationError`. -/
def wfActionsValidationError : ActionsValidationError → Prop
  | .deleteActionMustBeFinal => True
  | .totalPrepaidGasExceeded totalPrepaidGas limit => totalPrepaidGas < 2 ^ 64 ∧ limit < 2 ^ 64
  | .totalNumberOfActionsExceeded totalNumberOfActions limit => totalNumberOfActions < 2 ^ 64 ∧ limit < 2 ^ 64
  | .addKeyMethodNamesNumberOfBytesExceeded totalNumberOfBytes limit => totalNumberOfBytes < 2 ^ 64 ∧ limit < 2 ^ 64
  | .addKeyMethodNameLengthExceeded length limit => length < 2 ^ 64 ∧ limit < 2 ^ 64
  | .integerOverflow => True
  | .invalidAccountId accountId => accountId.length < 2 ^ 32
  | .contractSizeExceeded size limit => size < 2 ^ 64 ∧ limit < 2 ^ 64
  | .functionCallMethodNameLengthExceeded length limit => length < 2 ^ 64 ∧ limit < 2 ^ 64
  | .functionCallArgumentsLengthExceeded length limit => length < 2 ^ 64 ∧ limit < 2 ^ 64
  | .unsuitableStakingKey publicKey => wfPublicKey publicKey
  | .functionCallZeroAttachedGas => True
  | .delegateActionMustBeOnlyOne => True
  | .unsupportedProtocolFeature protocolFeature version => protocolFeature.length < 2 ^ 32 ∧ version < 2 ^ 32

/-- Borsh for `ActionsValidationError`: variant tag, then the payload fields. -/
def encActionsValidationError : ActionsValidationError → Bytes
  | .deleteActionMustBeFinal => [0]
  | .totalPrepaidGasExceeded totalPrepaidGas limit => 1 :: encU64 totalPrepaidGas ++ encU64 limit
  | .totalNumberOfActionsExceeded totalNumberOfActions limit => 2 :: encU64 totalNumberOfActions ++ encU64 limit
  | .addKeyMethodNamesNumberOfBytesExceeded totalNumberOfBytes limit => 3 :: encU64 totalNumberOfBytes ++ encU64 limit
  | .addKeyMethodNameLengthExceeded length limit => 4 :: encU64 length ++ encU64 limit
  | .integerOverflow => [5]
  | .invalidAccountId accountId => 6 :: encStr accountId
  | .contractSizeExceeded size limit => 7 :: encU64 size ++ encU64 limit
  | .functionCallMethodNameLengthExceeded length limit => 8 :: encU64 length ++ encU64 limit
  | .functionCallArgumentsLengthExceeded length limit => 9 :: encU64 length ++ encU64 limit
  | .unsuitableStakingKey publicKey => 10 :: encPublicKey publicKey
  | .functionCallZeroAttachedGas => [11]
  | .delegateActionMustBeOnlyOne => [12]
  | .unsupportedProtocolFeature protocolFeature version => 13 :: encStr protocolFeature ++ encU32 version

/-- Payload decoder for `ActionsValidationError`, given the variant tag. -/
def decActionsValidationErrorTag (t : Nat) (bs : Bytes) : Option (ActionsValidationError × Bytes) :=
    if t = 0 then some (.deleteActionMustBeFinal, bs)
    else if t = 1 then (decU64 bs).bind (fun p => (decU64 p.2).map (fun q => (.totalPrepaidGasExceeded p.1 q.1, q.2)))
    else if t = 2 then (decU64 bs).bind (fun p => (decU64 p.2).map (fun q => (.totalNumberOfActionsExceeded p.1 q.1, q.2)))
    else if t = 3 then (decU64 bs).bind (fun p => (decU64 p.2).map (fun q => (.addKeyMethodNamesNumberOfBytesExceeded p.1 q.1, q.2)))
    else if t = 4 then (decU64 bs).bind (fun p => (decU64 p.2).map (fun q => (.addKeyMethodNameLengthExceeded p.1 q.1, q.2)))
    else if t = 5 then some (.integerOverflow, bs)
    else if t = 6 then (decStr bs).map (fun p => (.invalidAccountId p.1, p.2))
    else if t = 7 then (decU64 bs).bind (fun p => (decU64 p.2).map (fun q => (.contractSizeExceeded p.1 q.1, q.2)))
    else if t = 8 then (decU64 bs).bind (fun p => (decU64 p.2).map (fun q => (.functionCallMethodNameLengthExceeded p.1 q.1, q.2)))
    else if t = 9 then (decU64 bs).bind (fun p => (decU64 p.2).map (fun q => (.functionCallArgumentsLengthExceeded p.1 q.1, q.2)))
    else if t = 10 then (decPublicKey bs).map (fun p => (.unsuitableStakingKey p.1, p.2))
    else if t = 11 then some (.functionCallZeroAttachedGas, bs)
    else if t = 12 then some (.delegateActionMustBeOnlyOne, bs)
    else if t = 13 then (decStr bs).bind (fun p => (decU32 p.2).map (fun q => (.unsupportedProtocolFeature p.1 q.1, q.2)))
    else none

/-- Borsh decoder for `ActionsValidationError`: tag byte, then the payload. -/
def decActionsValidationError (bs : Bytes) : Option (ActionsValidationError × Bytes) :=
  (decU8 bs).bind (fun p => decActionsValidationErrorTag p.1 p.2)

theorem decActionsValidationError_enc (x : ActionsValidationError) (hw : wfActionsValidationError x) (rest : Bytes) :
    decActionsValidationError (encActionsValidationError x ++ rest) = some (x, rest) := by
  cases x with
  | deleteActionMustBeFinal =>
    simp [encActionsValidationError, decActionsValidationError, decActionsValidationErrorTag, decU8, List.append_assoc]
  | totalPrepaidGasExceeded totalPrepaidGas limit =>
    simp [encActionsValidationError, decActionsValidationError, decActionsValidationErrorTag, decU8, List.append_assoc]
    rw [decU64_encU64 _ hw.1]
    simp [decU64_encU64 _ hw.2]
  | totalNumberOfActionsExceeded totalNumberOfActions limit =>
    simp [encActionsValidationError, decActionsValidationError, decActionsValidationErrorTag, decU8, List.append_assoc]
    rw [decU64_encU64 _ hw.1]
    simp [decU64_encU64 _ hw.2]
  | addKeyMethodNamesNumberOfBytesExceeded totalNumberOfBytes limit =>
    simp [encActionsValidationError, decActionsValidationError, decActionsValidationErrorTag, decU8, List.append_assoc]
    rw [decU64_encU64 _ hw.1]
    simp [decU64_encU64 _ hw.2]
  | addKeyMethodNameLengthExceeded length limit =>
    simp [encActionsValidationError, decActionsValidationError, decActionsValidationErrorTag, decU8, List.append_assoc]
    rw [decU64_encU64 _ hw.1]
    simp [decU64_encU64 _ hw.2]
  | integerOverflow =>
    simp [encActionsValidationError, decActionsValidationError, decActionsValidationErrorTag, decU8, List.append_assoc]
  | invalidAccountId accountId =>
    simp [encActionsValidationError, decActionsValidationError, decActionsValidationErrorTag, decU8, List.append_assoc]
    exact decStr_encStr _ hw _
  | contractSizeExceeded size limit =>
    simp [encActionsValidationError, decActionsValidationError, decActionsValidationErrorTag, decU8, List.append_assoc]
    rw [decU64_encU64 _ hw.1]
    simp [decU64_encU64 _ hw.2]
  | functionCallMethodNameLengthExceeded length limit =>
    simp [encActionsValidationError, decActionsValidationError, decActionsValidationErrorTag, decU8, List.append_assoc]
    rw [decU64_encU64 _ hw.1]
    simp [decU64_encU64 _ hw.2]
  | functionCallArgumentsLengthExceeded length limit =>
    simp [encActionsValidationError, decActionsValidationError, decActionsValidationErrorTag, decU8, List.append_assoc]
    rw [decU64_encU64 _ hw.1]
    simp [decU64_encU64 _ hw.2]
  | unsuitableStakingKey publicKey =>
    simp [encActionsValidationError, decActionsValidationError, decActionsValidationErrorTag, decU8, List.append_assoc]
    exact decPublicKey_encPublicKey _ hw _
  | functionCallZeroAttachedGas =>
    simp [encActionsValidationError, decActionsValidationError, decActionsValidationErrorTag, decU8, List.append_assoc]
  | delegateActionMustBeOnlyOne =>
    simp [encActionsValidationError, decActionsValidationError, decActionsValidationErrorTag, decU8, List.append_assoc]
  | unsupportedProtocolFeature protocolFeature version =>
    simp [encActionsValidationError, decActionsValidationError, decActionsValidationErrorTag, decU8, List.append_assoc]
    rw [decStr_encStr _ hw.1]
    simp [decU32_encU32 _ hw.2]

/-- NEAR receipt validation errors (`ReceiptValidationError`). -/
inductive ReceiptValidationError where
  | invalidPredecessorId (accountId : Bytes)
  | invalidReceiverId (accountId : Bytes)
  | invalidSignerId (accountId : Bytes)
  | invalidDataReceiverId (accountId : Bytes)
  | returnedValueLengthExceeded (length : Nat) (limit : Nat)
  | numberInputDataDependenciesExceeded (numberOfInputDataDependencies : Nat) (limit : Nat)
  | actionsValidation (e : ActionsValidationError)
  | receiptSizeExceeded (size : Nat) (limit : Nat)
deriving DecidableEq

/-- Payload bounds for `ReceiptValidationError`. -/
def wfReceiptValidationError : ReceiptValidationError → Prop
  | .invalidPredecessorId accountId => accountId.length < 2 ^ 32
  | .invalidReceiverId accountId => accountId.length < 2 ^ 32
  | .invalidSignerId accountId => accountId.length < 2 ^ 32
  | .invalidDataReceiverId accountId => accountId.length < 2 ^ 32
  | .returnedValueLengthExceeded length limit => length < 2 ^ 64 ∧ limit < 2 ^ 64
  | .numberInputDataDependenciesExceeded numberOfInputDataDependencies limit => numberOfInputDataDependencies < 2 ^ 64 ∧ limit < 2 ^ 64
  | .actionsValidation e => wfActionsValidationError e
  | .receiptSizeExceeded size limit => size < 2 ^ 64 ∧ limit < 2 ^ 64

/-- Borsh for `ReceiptValidationError`: variant tag, then the payload fields. -/
def encReceiptValidationError : ReceiptValidationError → Bytes
  | .invalidPredecessorId accountId => 0 :: encStr accountId
  | .invalidReceiverId accountId => 1 :: encStr accountId
  | .invalidSignerId accountId => 2 :: encStr accountId
  | .invalidDataReceiverId accountId => 3 :: encStr accountId
  | .returnedValueLengthExceeded length limit => 4 :: encU64 length ++ encU64 limit
  | .numberInputDataDependenciesExceeded numberOfInputDataDependencies limit => 5 :: encU64 numberOfInputDataDependencies ++ encU64 limit
  | .actionsValidation e => 6 :: encActionsValidationError e
  | .receiptSizeExceeded size limit => 7 :: encU64 size ++ encU64 limit

/-- Payload decoder for `ReceiptValidationError`, given the variant tag. -/
def decReceiptValidationErrorTag (t : Nat) (bs : Bytes) : Option (ReceiptValidationError × Bytes) :=
    if t = 0 then (decStr bs).map (fun p => (.invalidPredecessorId p.1, p.2))
    else if t = 1 then (decStr bs).map (fun p => (.invalidReceiverId p.1, p.2))
    else if t = 2 then (decStr bs).map (fun p => (.invalidSignerId p.1, p.2))
    else if t = 3 then (decStr bs).map (fun p => (.invalidDataReceiverId p.1, p.2))
    else if t = 4 then (decU64 bs).bind (fun p => (decU64 p.2).map (fun q => (.returnedValueLengthExceeded p.1 q.1, q.2)))
    else if t = 5 then (decU64 bs).bind (fun p => (decU64 p.2).map (fun q => (.numberInputDataDependenciesExceeded p.1 q.1, q.2)))
    else if t = 6 then (decActionsValidationError bs).map (fun p => (.actionsValidation p.1, p.2))
    else if t = 7 then (decU64 bs).bind (fun p => (decU64 p.2).map (fun q => (.receiptSizeExceeded p.1 q.1, q.2)))
    else none

/-- Borsh decoder for `ReceiptValidationError`: tag byte, then the payload. -/
def decReceiptValidationError (bs : Bytes) : Option (ReceiptValidationError × Bytes) :=
  (decU8 bs).bind (fun p => decReceiptValidationErrorTag p.1 p.2)

theorem decReceiptValidationError_enc (x : ReceiptValidationError) (hw : wfReceiptValidationError x) (rest : Bytes) :
    decReceiptValidationError (encReceiptValidationError x ++ rest) = some (x, rest) := by
  cases x with
  | invalidPredecessorId accountId =>
    simp [encReceiptValidationError, decReceiptValidationError, decReceiptValidationErrorTag, decU8, List.append_assoc]
    exact decStr_encStr _ hw _
  | invalidReceiverId accountId =>
    simp [encReceiptValidationError, decReceiptValidationError, decReceiptValidationErrorTag, decU8, List.append_assoc]
    exact decStr_encStr _ hw _
  | invalidSignerId accountId =>
    simp [encReceiptValidationError, decReceiptValidationError, decReceiptValidationErrorTag, decU8, List.append_assoc]
    exact decStr_encStr _ hw _
  | invalidDataReceiverId accountId =>
    simp [encReceiptValidationError, decReceiptValidationError, decReceiptValidationErrorTag, decU8, List.append_assoc]
    exact decStr_encStr _ hw _
  | returnedValueLengthExceeded length limit =>
    simp [encReceiptValidationError, decReceiptValidationError, decReceiptValidationErrorTag, decU8, List.append_assoc]
    rw [decU64_encU64 _ hw.1]
    simp [decU64_encU64 _ hw.2]
  | numberInputDataDependenciesExceeded numberOfInputDataDependencies limit =>
    simp [encReceiptValidationError, decReceiptValidationError, decReceiptValidationErrorTag, decU8, List.append_assoc]
    rw [decU64_encU64 _ hw.1]
    simp [decU64_encU64 _ hw.2]
  | actionsValidation e =>
    simp [encReceiptValidationError, decReceiptValidationError, decReceiptValidationErrorTag, decU8, List.append_assoc]
    exact decActionsValidationError_enc _ hw _
  | receiptSizeExceeded size limit =>
    simp [encReceiptValidationError, decReceiptValidationError, decReceiptValidationErrorTag, decU8, List.append_assoc]
    rw [decU64_encU64 _ hw.1]
    simp [decU64_encU64 _ hw.2]

/-- NEAR access-key errors (`InvalidAccessKeyError`). -/
inductive InvalidAccessKeyError where
  | accessKeyNotFound (accountId : AccountId) (publicKey : PublicKey)
  | receiverMismatch (txReceiver : AccountId) (akReceiver : Bytes)
  | methodNameMismatch (methodName : Bytes)
  | requiresFullAccess
  | notEnoughAllowance (accountId : AccountId) (publicKey : PublicKey) (allowance : Nat) (cost : Nat)
  | depositWithFunctionCall
deriving DecidableEq

/-- Payload bounds for `InvalidAccessKeyError`. -/
def wfInvalidAccessKeyError : InvalidAccessKeyError → Prop
  | .accessKeyNotFound accountId publicKey => accountId.length < 2 ^ 32 ∧ wfPublicKey publicKey
  | .receiverMismatch txReceiver akReceiver => txReceiver.length < 2 ^ 32 ∧ akReceiver.length < 2 ^ 32
  | .methodNameMismatch methodName => methodName.length < 2 ^ 32
  | .requiresFullAccess => True
  | .notEnoughAllowance accountId publicKey allowance cost => accountId.length < 2 ^ 32 ∧ wfPublicKey publicKey ∧ allowance < 2 ^ 128 ∧ cost < 2 ^ 128
  | .depositWithFunctionCall => True

/-- Borsh for `InvalidAccessKeyError`: variant tag, then the payload fields. -/
def encInvalidAccessKeyError : InvalidAccessKeyError → Bytes
  | .accessKeyNotFound accountId publicKey => 0 :: encAccount accountId ++ encPublicKey publicKey
  | .receiverMismatch txReceiver akReceiver => 1 :: encAccount txReceiver ++ encStr akReceiver
  | .methodNameMismatch methodName => 2 :: encStr methodName
  | .requiresFullAccess => [3]
  | .notEnoughAllowance accountId publicKey allowance cost => 4 :: encAccount accountId ++ encPublicKey publicKey ++ encU128 allowance ++ encU128 cost
  | .depositWithFunctionCall => [5]

/-- Payload decoder for `InvalidAccessKeyError`, given the variant tag. -/
def decInvalidAccessKeyErrorTag (t : Nat) (bs : Bytes) : Option (InvalidAccessKeyError × Bytes) :=
    if t = 0 then (decAccount bs).bind (fun p => (decPublicKey p.2).map (fun q => (.accessKeyNotFound p.1 q.1, q.2)))
    else if t = 1 then (decAccount bs).bind (fun p => (decStr p.2).map (fun q => (.receiverMismatch p.1 q.1, q.2)))
    else if t = 2 then (decStr bs).map (fun p => (.methodNameMismatch p.1, p.2))
    else if t = 3 then some (.requiresFullAccess, bs)
    else if t = 4 then (decAccount bs).bind (fun p => (decPublicKey p.2).bind (fun q => (decU128 q.2).bind (fun r => (decU128 r.2).map (fun s5 => (.notEnoughAllowance p.1 q.1 r.1 s5.1, s5.2)))))
    else if t = 5 then some (.depositWithFunctionCall, bs)
    else none

/-- Borsh decoder for `InvalidAccessKeyError`: tag byte, then the payload. -/
def decInvalidAccessKeyError (bs : Bytes) : Option (InvalidAccessKeyError × Bytes) :=
  (decU8 bs).bind (fun p => decInvalidAccessKeyErrorTag p.1 p.2)

theorem decInvalidAccessKeyError_enc (x : InvalidAccessKeyError) (hw : wfInvalidAccessKeyError x) (rest : Bytes) :
    decInvalidAccessKeyError (encInvalidAccessKeyError x ++ rest) = some (x, rest) := by
  cases x with
  | accessKeyNotFound accountId publicKey =>
    simp [encInvalidAccessKeyError, decInvalidAccessKeyError, decInvalidAccessKeyErrorTag, decU8, List.append_assoc]
    rw [decAccount_encAccount _ hw.1]
    simp [decPublicKey_encPublicKey _ hw.2]
  | receiverMismatch txReceiver akReceiver =>
    simp [encInvalidAccessKeyError, decInvalidAccessKeyError, decInvalidAccessKeyErrorTag, decU8, List.append_assoc]
    rw [decAccount_encAccount _ hw.1]
    simp [decStr_encStr _ hw.2]
  | methodNameMismatch methodName =>
    simp [encInvalidAccessKeyError, decInvalidAccessKeyError, decInvalidAccessKeyErrorTag, decU8, List.append_assoc]
    exact decStr_encStr _ hw _
  | requiresFullAccess =>
    simp [encInvalidAccessKeyError, decInvalidAccessKeyError, decInvalidAccessKeyErrorTag, decU8, List.append_assoc]
  | notEnoughAllowance accountId publicKey allowance cost =>
    simp [encInvalidAccessKeyError, decInvalidAccessKeyError, decInvalidAccessKeyErrorTag, decU8, List.append_assoc]
    rw [decAccount_encAccount _ hw.1]
    simp [decPublicKey_encPublicKey _ hw.2.1, decU128_encU128 _ hw.2.2.1, decU128_encU128 _ hw.2.2.2]
  | depositWithFunctionCall =>
    simp [encInvalidAccessKeyError, decInvalidAccessKeyError, decInvalidAccessKeyErrorTag, decU8, List.append_assoc]

/-- NEAR invalid-transaction errors (`InvalidTxError`). -/
inductive InvalidTxError where
  | invalidAccessKeyError (e : InvalidAccessKeyError)
  | invalidSignerId (signerId : Bytes)
  | signerDoesNotExist (signerId : AccountId)
  | invalidNonce (txNonce : Nat) (akNonce : Nat)
  | nonceTooLarge (txNonce : Nat) (upperBound : Nat)
  | invalidReceiverId (receiverId : Bytes)
  | invalidSignature
  | notEnoughBalance (signerId : AccountId) (balance : Nat) (cost : Nat)
  | lackBalanceForState (signerId : AccountId) (amount : Nat)
  | costOverflow
  | invalidChain
  | expired
  | actionsValidation (e : ActionsValidationError)
  | transactionSizeExceeded (size : Nat) (limit : Nat)
deriving DecidableEq

/-- Payload bounds for `InvalidTxError`. -/
def wfInvalidTxError : InvalidTxError → Prop
  | .invalidAccessKeyError e => wfInvalidAccessKeyError e
  | .invalidSignerId signerId => signerId.length < 2 ^ 32
  | .signerDoesNotExist signerId => signerId.length < 2 ^ 32
  | .invalidNonce txNonce akNonce => txNonce < 2 ^ 64 ∧ akNonce < 2 ^ 64
  | .nonceTooLarge txNonce upperBound => txNonce < 2 ^ 64 ∧ upperBound < 2 ^ 64
  | .invalidReceiverId receiverId => receiverId.length < 2 ^ 32
  | .invalidSignature => True
  | .notEnoughBalance signerId balance cost => signerId.length < 2 ^ 32 ∧ balance < 2 ^ 128 ∧ cost < 2 ^ 128
  | .lackBalanceForState signerId amount => signerId.length < 2 ^ 32 ∧ amount < 2 ^ 128
  | .costOverflow => True
  | .invalidChain => True
  | .expired => True
  | .actionsValidation e => wfActionsValidationError e
  | .transactionSizeExceeded size limit => size < 2 ^ 64 ∧ limit < 2 ^ 64

/-- Borsh for `InvalidTxError`: variant tag, then the payload fields. -/
def encInvalidTxError : InvalidTxError → Bytes
  | .invalidAccessKeyError e => 0 :: encInvalidAccessKeyError e
  | .invalidSignerId signerId => 1 :: encStr signerId
  | .signerDoesNotExist signerId => 2 :: encAccount signerId
  | .invalidNonce txNonce akNonce => 3 :: encU64 txNonce ++ encU64 akNonce
  | .nonceTooLarge txNonce upperBound => 4 :: encU64 txNonce ++ encU64 upperBound
  | .invalidReceiverId receiverId => 5 :: encStr receiverId
  | .invalidSignature => [6]
  | .notEnoughBalance signerId balance cost => 7 :: encAccount signerId ++ encU128 balance ++ encU128 cost
  | .lackBalanceForState signerId amount => 8 :: encAccount signerId ++ encU128 amount
  | .costOverflow => [9]
  | .invalidChain => [10]
  | .expired => [11]
  | .actionsValidation e => 12 :: encActionsValidationError e
  | .transactionSizeExceeded size limit => 13 :: encU64 size ++ encU64 limit

/-- Payload decoder for `InvalidTxError`, given the variant tag. -/
def decInvalidTxErrorTag (t : Nat) (bs : Bytes) : Option (InvalidTxError × Bytes) :=
    if t = 0 then (decInvalidAccessKeyError bs).map (fun p => (.invalidAccessKeyError p.1, p.2))
    else if t = 1 then (decStr bs).map (fun p => (.invalidSignerId p.1, p.2))
    else if t = 2 then (decAccount bs).map (fun p => (.signerDoesNotExist p.1, p.2))
    else if t = 3 then (decU64 bs).bind (fun p => (decU64 p.2).map (fun q => (.invalidNonce p.1 q.1, q.2)))
    else if t = 4 then (decU64 bs).bind (fun p => (decU64 p.2).map (fun q => (.nonceTooLarge p.1 q.1, q.2)))
    else if t = 5 then (decStr bs).map (fun p => (.invalidReceiverId p.1, p.2))
    else if t = 6 then some (.invalidSignature, bs)
    else if t = 7 then (decAccount bs).bind (fun p => (decU128 p.2).bind (fun q => (decU128 q.2).map (fun r => (.notEnoughBalance p.1 q.1 r.1, r.2))))
    else if t = 8 then (decAccount bs).bind (fun p => (decU128 p.2).map (fun q => (.lackBalanceForState p.1 q.1, q.2)))
    else if t = 9 then some (.costOverflow, bs)
    else if t = 10 then some (.invalidChain, bs)
    else if t = 11 then some (.expired, bs)
    else if t = 12 then (decActionsValidationError bs).map (fun p => (.actionsValidation p.1, p.2))
    else if t = 13 then (decU64 bs).bind (fun p => (decU64 p.2).map (fun q => (.transactionSizeExceeded p.1 q.1, q.2)))
    else none

/-- Borsh decoder for `InvalidTxError`: tag byte, then the payload. -/
def decInvalidTxError (bs : Bytes) : Option (InvalidTxError × Bytes) :=
  (decU8 bs).bind (fun p => decInvalidTxErrorTag p.1 p.2)

theorem decInvalidTxError_enc (x : InvalidTxError) (hw : wfInvalidTxError x) (rest : Bytes) :
    decInvalidTxError (encInvalidTxError x ++ rest) = some (x, rest) := by
  cases x with
  | invalidAccessKeyError e =>
    simp [encInvalidTxError, decInvalidTxError, decInvalidTxErrorTag, decU8, List.append_assoc]
    exact decInvalidAccessKeyError_enc _ hw _
  | invalidSignerId signerId =>
    simp [encInvalidTxError, decInvalidTxError, decInvalidTxErrorTag, decU8, List.append_assoc]
    exact decStr_encStr _ hw _
  | signerDoesNotExist signerId =>
    simp [encInvalidTxError, decInvalidTxError, decInvalidTxErrorTag, decU8, List.append_assoc]
    exact decAccount_encAccount _ hw _
  | invalidNonce txNonce akNonce =>
    simp [encInvalidTxError, decInvalidTxError, decInvalidTxErrorTag, decU8, List.append_assoc]
    rw [decU64_encU64 _ hw.1]
    simp [decU64_encU64 _ hw.2]
  | nonceTooLarge txNonce upperBound =>
    simp [encInvalidTxError, decInvalidTxError, decInvalidTxErrorTag, decU8, List.append_assoc]
    rw [decU64_encU64 _ hw.1]
    simp [decU64_encU64 _ hw.2]
  | invalidReceiverId receiverId =>
    simp [encInvalidTxError, decInvalidTxError, decInvalidTxErrorTag, decU8, List.append_assoc]
    exact decStr_encStr _ hw _
  | invalidSignature =>
    simp [encInvalidTxError, decInvalidTxError, decInvalidTxErrorTag, decU8, List.append_assoc]
  | notEnoughBalance signerId balance cost =>
    simp [encInvalidTxError, decInvalidTxError, decInvalidTxErrorTag, decU8, List.append_assoc]
    rw [decAccount_encAccount _ hw.1]
    simp [decU128_encU128 _ hw.2.1, decU128_encU128 _ hw.2.2]
  | lackBalanceForState signerId amount =>
    simp [encInvalidTxError, decInvalidTxError, decInvalidTxErrorTag, decU8, List.append_assoc]
    rw [decAccount_encAccount _ hw.1]
    simp [decU128_encU128 _ hw.2]
  | costOverflow =>
    simp [encInvalidTxError, decInvalidTxError, decInvalidTxErrorTag, decU8, List.append_assoc]
  | invalidChain =>
    simp [encInvalidTxError, decInvalidTxError, decInvalidTxErrorTag, decU8, List.append_assoc]
  | expired =>
    simp [encInvalidTxError, decInvalidTxError, decInvalidTxErrorTag, decU8, List.append_assoc]
  | actionsValidation e =>
    simp [encInvalidTxError, decInvalidTxError, decInvalidTxErrorTag, decU8, List.append_assoc]
    exact decActionsValidationError_enc _ hw _
  | transactionSizeExceeded size limit =>
    simp [encInvalidTxError, decInvalidTxError, decInvalidTxErrorTag, decU8, List.append_assoc]
    rw [decU64_encU64 _ hw.1]
    simp [decU64_encU64 _ hw.2]

/-- NEAR action execution error kinds (`ActionErrorKind`). -/
inductive ActionErrorKind where
  | accountAlreadyExists (accountId : AccountId)
  | accountDoesNotExist (accountId : AccountId)
  | createAccountOnlyByRegistrar (accountId : AccountId) (registrarAccountId : AccountId) (predecessorId : AccountId)
  | createAccountNotAllowed (accountId : AccountId) (predecessorId : AccountId)
  | actorNoPermission (accountId : AccountId) (actorId : AccountId)
  | deleteKeyDoesNotExist (accountId : AccountId) (publicKey : PublicKey)
  | addKeyAlreadyExists (accountId : AccountId) (publicKey : PublicKey)
  | deleteAccountStaking (accountId : AccountId)
  | lackBalanceForState (accountId : AccountId) (amount : Nat)
  | triesToUnstake (accountId : AccountId)
  | triesToStake (accountId : AccountId) (stake : Nat) (locked : Nat) (balance : Nat)
  | insufficientStake (accountId : AccountId) (stake : Nat) (minimumStake : Nat)
  | functionCallError (e : FunctionCallError)
  | newReceiptValidationError (e : ReceiptValidationError)
  | onlyImplicitAccountCreationAllowed (accountId : AccountId)
  | deleteAccountWithLargeState (accountId : AccountId)
  | delegateActionInvalidSignature
  | delegateActionSenderDoesNotMatchTxReceiver (senderId : AccountId) (receiverId : AccountId)
  | delegateActionExpired
  | delegateActionAccessKeyError (e : InvalidAccessKeyError)
  | delegateActionInvalidNonce (delegateNonce : Nat) (akNonce : Nat)
  | delegateActionNonceTooLarge (delegateNonce : Nat) (upperBound : Nat)
deriving DecidableEq

/-- Payload bounds for `ActionErrorKind`. -/
def wfActionErrorKind : ActionErrorKind → Prop
  | .accountAlreadyExists accountId => accountId.length < 2 ^ 32
  | .accountDoesNotExist accountId => accountId.length < 2 ^ 32
  | .createAccountOnlyByRegistrar accountId registrarAccountId predecessorId => accountId.length < 2 ^ 32 ∧ registrarAccountId.length < 2 ^ 32 ∧ predecessorId.length < 2 ^ 32
  | .createAccountNotAllowed accountId predecessorId => accountId.length < 2 ^ 32 ∧ predecessorId.length < 2 ^ 32
  | .actorNoPermission accountId actorId => accountId.length < 2 ^ 32 ∧ actorId.length < 2 ^ 32
  | .deleteKeyDoesNotExist accountId publicKey => accountId.length < 2 ^ 32 ∧ wfPublicKey publicKey
  | .addKeyAlreadyExists accountId publicKey => accountId.length < 2 ^ 32 ∧ wfPublicKey publicKey
  | .deleteAccountStaking accountId => accountId.length < 2 ^ 32
  | .lackBalanceForState accountId amount => accountId.length < 2 ^ 32 ∧ amount < 2 ^ 128
  | .triesToUnstake accountId => accountId.length < 2 ^ 32
  | .triesToStake accountId stake locked balance => accountId.length < 2 ^ 32 ∧ stake < 2 ^ 128 ∧ locked < 2 ^ 128 ∧ balance < 2 ^ 128
  | .insufficientStake accountId stake minimumStake => accountId.length < 2 ^ 32 ∧ stake < 2 ^ 128 ∧ minimumStake < 2 ^ 128
  | .functionCallError e => wfFunctionCallError e
  | .newReceiptValidationError e => wfReceiptValidationError e
  | .onlyImplicitAccountCreationAllowed accountId => accountId.length < 2 ^ 32
  | .deleteAccountWithLargeState accountId => accountId.length < 2 ^ 32
  | .delegateActionInvalidSignature => True
  | .delegateActionSenderDoesNotMatchTxReceiver senderId receiverId => senderId.length < 2 ^ 32 ∧ receiverId.length < 2 ^ 32
  | .delegateActionExpired => True
  | .delegateActionAccessKeyError e => wfInvalidAccessKeyError e
  | .delegateActionInvalidNonce delegateNonce akNonce => delegateNonce < 2 ^ 64 ∧ akNonce < 2 ^ 64
  | .delegateActionNonceTooLarge delegateNonce upperBound => delegateNonce < 2 ^ 64 ∧ upperBound < 2 ^ 64

/-- Borsh for `ActionErrorKind`: variant tag, then the payload fields. -/
def encActionErrorKind : ActionErrorKind → Bytes
  | .accountAlreadyExists accountId => 0 :: encAccount accountId
  | .accountDoesNotExist accountId => 1 :: encAccount accountId
  | .createAccountOnlyByRegistrar accountId registrarAccountId predecessorId => 2 :: encAccount accountId ++ encAccount registrarAccountId ++ encAccount predecessorId
  | .createAccountNotAllowed accountId predecessorId => 3 :: encAccount accountId ++ encAccount predecessorId
  | .actorNoPermission accountId actorId => 4 :: encAccount accountId ++ encAccount actorId
  | .deleteKeyDoesNotExist accountId publicKey => 5 :: encAccount accountId ++ encPublicKey publicKey
  | .addKeyAlreadyExists accountId publicKey => 6 :: encAccount accountId ++ encPublicKey publicKey
  | .deleteAccountStaking accountId => 7 :: encAccount accountId
  | .lackBalanceForState accountId amount => 8 :: encAccount accountId ++ encU128 amount
  | .triesToUnstake accountId => 9 :: encAccount accountId
  | .triesToStake accountId stake locked balance => 10 :: encAccount accountId ++ encU128 stake ++ encU128 locked ++ encU128 balance
  | .insufficientStake accountId stake minimumStake => 11 :: encAccount accountId ++ encU128 stake ++ encU128 minimumStake
  | .functionCallError e => 12 :: encFunctionCallError e
  | .newReceiptValidationError e => 13 :: encReceiptValidationError e
  | .onlyImplicitAccountCreationAllowed accountId => 14 :: encAccount accountId
  | .deleteAccountWithLargeState accountId => 15 :: encAccount accountId
  | .delegateActionInvalidSignature => [16]
  | .delegateActionSenderDoesNotMatchTxReceiver senderId receiverId => 17 :: encAccount senderId ++ encAccount receiverId
  | .delegateActionExpired => [18]
  | .delegateActionAccessKeyError e => 19 :: encInvalidAccessKeyError e
  | .delegateActionInvalidNonce delegateNonce akNonce => 20 :: encU64 delegateNonce ++ encU64 akNonce
  | .delegateActionNonceTooLarge delegateNonce upperBound => 21 :: encU64 delegateNonce ++ encU64 upperBound

/-- Payload decoder for `ActionErrorKind`, given the variant tag. -/
def decActionErrorKindTag (t : Nat) (bs : Bytes) : Option (ActionErrorKind × Bytes) :=
    if t = 0 then (decAccount bs).map (fun p => (.accountAlreadyExists p.1, p.2))
    else if t = 1 then (decAccount bs).map (fun p => (.accountDoesNotExist p.1, p.2))
    else if t = 2 then (decAccount bs).bind (fun p => (decAccount p.2).bind (fun q => (decAccount q.2).map (fun r => (.createAccountOnlyByRegistrar p.1 q.1 r.1, r.2))))
    else if t = 3 then (decAccount bs).bind (fun p => (decAccount p.2).map (fun q => (.createAccountNotAllowed p.1 q.1, q.2)))
    else if t = 4 then (decAccount bs).bind (fun p => (decAccount p.2).map (fun q => (.actorNoPermission p.1 q.1, q.2)))
    else if t = 5 then (decAccount bs).bind (fun p => (decPublicKey p.2).map (fun q => (.deleteKeyDoesNotExist p.1 q.1, q.2)))
    else if t = 6 then (decAccount bs).bind (fun p => (decPublicKey p.2).map (fun q => (.addKeyAlreadyExists p.1 q.1, q.2)))
    else if t = 7 then (decAccount bs).map (fun p => (.deleteAccountStaking p.1, p.2))
    else if t = 8 then (decAccount bs).bind (fun p => (decU128 p.2).map (fun q => (.lackBalanceForState p.1 q.1, q.2)))
    else if t = 9 then (decAccount bs).map (fun p => (.triesToUnstake p.1, p.2))
    else if t = 10 then (decAccount bs).bind (fun p => (decU128 p.2).bind (fun q => (decU128 q.2).bind (fun r => (decU128 r.2).map (fun s5 => (.triesToStake p.1 q.1 r.1 s5.1, s5.2)))))
    else if t = 11 then (decAccount bs).bind (fun p => (decU128 p.2).bind (fun q => (decU128 q.2).map (fun r => (.insufficientStake p.1 q.1 r.1, r.2))))
    else if t = 12 then (decFunctionCallError bs).map (fun p => (.functionCallError p.1, p.2))
    else if t = 13 then (decReceiptValidationError bs).map (fun p => (.newReceiptValidationError p.1, p.2))
    else if t = 14 then (decAccount bs).map (fun p => (.onlyImplicitAccountCreationAllowed p.1, p.2))
    else if t = 15 then (decAccount bs).map (fun p => (.deleteAccountWithLargeState p.1, p.2))
    else if t = 16 then some (.delegateActionInvalidSignature, bs)
    else if t = 17 then (decAccount bs).bind (fun p => (decAccount p.2).map (fun q => (.delegateActionSenderDoesNotMatchTxReceiver p.1 q.1, q.2)))
    else if t = 18 then some (.delegateActionExpired, bs)
    else if t = 19 then (decInvalidAccessKeyError bs).map (fun p => (.delegateActionAccessKeyError p.1, p.2))
    else if t = 20 then (decU64 bs).bind (fun p => (decU64 p.2).map (fun q => (.delegateActionInvalidNonce p.1 q.1, q.2)))
    else if t = 21 then (decU64 bs).bind (fun p => (decU64 p.2).map (fun q => (.delegateActionNonceTooLarge p.1 q.1, q.2)))
    else none

/-- Borsh decoder for `ActionErrorKind`: tag byte, then the payload. -/
def decActionErrorKind (bs : Bytes) : Option (ActionErrorKind × Bytes) :=
  (decU8 bs).bind (fun p => decActionErrorKindTag p.1 p.2)

theorem decActionErrorKind_enc (x : ActionErrorKind) (hw : wfActionErrorKind x) (rest : Bytes) :
    decActionErrorKind (encActionErrorKind x ++ rest) = some (x, rest) := by
  cases x with
  | accountAlreadyExists accountId =>
    simp [encActionErrorKind, decActionErrorKind, decActionErrorKindTag, decU8, List.append_assoc]
    exact decAccount_encAccount _ hw _
  | accountDoesNotExist accountId =>
    simp [encActionErrorKind, decActionErrorKind, decActionErrorKindTag, decU8, List.append_assoc]
    exact decAccount_encAccount _ hw _
  | createAccountOnlyByRegistrar accountId registrarAccountId predecessorId =>
    simp [encActionErrorKind, decActionErrorKind, decActionErrorKindTag, decU8, List.append_assoc]
    rw [decAccount_encAccount _ hw.1]
    simp [decAccount_encAccount _ hw.2.1, decAccount_encAccount _ hw.2.2]
  | createAccountNotAllowed accountId predecessorId =>
    simp [encActionErrorKind, decActionErrorKind, decActionErrorKindTag, decU8, List.append_assoc]
    rw [decAccount_encAccount _ hw.1]
    simp [decAccount_encAccount _ hw.2]
  | actorNoPermission accountId actorId =>
    simp [encActionErrorKind, decActionErrorKind, decActionErrorKindTag, decU8, List.append_assoc]
    rw [decAccount_encAccount _ hw.1]
    simp [decAccount_encAccount _ hw.2]
  | deleteKeyDoesNotExist accountId publicKey =>
    simp [encActionErrorKind, decActionErrorKind, decActionErrorKindTag, decU8, List.append_assoc]
    rw [decAccount_encAccount _ hw.1]
    simp [decPublicKey_encPublicKey _ hw.2]
  | addKeyAlreadyExists accountId publicKey =>
    simp [encActionErrorKind, decActionErrorKind, decActionErrorKindTag, decU8, List.append_assoc]
    rw [decAccount_encAccount _ hw.1]
    simp [decPublicKey_encPublicKey _ hw.2]
  | deleteAccountStaking accountId =>
    simp [encActionErrorKind, decActionErrorKind, decActionErrorKindTag, decU8, List.append_assoc]
    exact decAccount_encAccount _ hw _
  | lackBalanceForState accountId amount =>
    simp [encActionErrorKind, decActionErrorKind, decActionErrorKindTag, decU8, List.append_assoc]
    rw [decAccount_encAccount _ hw.1]
    simp [decU128_encU128 _ hw.2]
  | triesToUnstake accountId =>
    simp [encActionErrorKind, decActionErrorKind, decActionErrorKindTag, decU8, List.append_assoc]
    exact decAccount_encAccount _ hw _
  | triesToStake accountId stake locked balance =>
    simp [encActionErrorKind, decActionErrorKind, decActionErrorKindTag, decU8, List.append_assoc]
    rw [decAccount_encAccount _ hw.1]
    simp [decU128_encU128 _ hw.2.1, decU128_encU128 _ hw.2.2.1, decU128_encU128 _ hw.2.2.2]
  | insufficientStake accountId stake minimumStake =>
    simp [encActionErrorKind, decActionErrorKind, decActionErrorKindTag, decU8, List.append_assoc]
    rw [decAccount_encAccount _ hw.1]
    simp [decU128_encU128 _ hw.2.1, decU128_encU128 _ hw.2.2]
  | functionCallError e =>
    simp [encActionErrorKind, decActionErrorKind, decActionErrorKindTag, decU8, List.append_assoc]
    exact decFunctionCallError_enc _ hw _
  | newReceiptValidationError e =>
    simp [encActionErrorKind, decActionErrorKind, decActionErrorKindTag, decU8, List.append_assoc]
    exact decReceiptValidationError_enc _ hw _
  | onlyImplicitAccountCreationAllowed accountId =>
    simp [encActionErrorKind, decActionErrorKind, decActionErrorKindTag, decU8, List.append_assoc]
    exact decAccount_encAccount _ hw _
  | deleteAccountWithLargeState accountId =>
    simp [encActionErrorKind, decActionErrorKind, decActionErrorKindTag, decU8, List.append_assoc]
    exact decAccount_encAccount _ hw _
  | delegateActionInvalidSignature =>
    simp [encActionErrorKind, decActionErrorKind, decActionErrorKindTag, decU8, List.append_assoc]
  | delegateActionSenderDoesNotMatchTxReceiver senderId receiverId =>
    simp [encActionErrorKind, decActionErrorKind, decActionErrorKindTag, decU8, List.append_assoc]
    rw [decAccount_encAccount _ hw.1]
    simp [decAccount_encAccount _ hw.2]
  | delegateActionExpired =>
    simp [encActionErrorKind, decActionErrorKind, decActionErrorKindTag, decU8, List.append_assoc]
  | delegateActionAccessKeyError e =>
    simp [encActionErrorKind, decActionErrorKind, decActionErrorKindTag, decU8, List.append_assoc]
    exact decInvalidAccessKeyError_enc _ hw _
  | delegateActionInvalidNonce delegateNonce akNonce =>
    simp [encActionErrorKind, decActionErrorKind, decActionErrorKindTag, decU8, List.append_assoc]
    rw [decU64_encU64 _ hw.1]
    simp [decU64_encU64 _ hw.2]
  | delegateActionNonceTooLarge delegateNonce upperBound =>
    simp [encActionErrorKind, decActionErrorKind, decActionErrorKindTag, decU8, List.append_assoc]
    rw [decU64_encU64 _ hw.1]
    simp [decU64_encU64 _ hw.2]

/-- NEAR action error (`ActionError`): the index of the failed action in the
transaction, and the kind. -/
structure ActionError where
  index : Option Nat
  kind : ActionErrorKind
deriving DecidableEq

/-- Payload bounds for `ActionError`. -/
def wfActionError (e : ActionError) : Prop :=
  (∀ i, e.index = some i → i < 2 ^ 64) ∧ wfActionErrorKind e.kind

/-- Borsh for `ActionError`: `Option<u64>` index, then the kind. -/
def encActionError (e : ActionError) : Bytes :=
  encOpt encU64 e.index ++ encActionErrorKind e.kind

/-- Borsh decoder for `ActionError`. -/
def decActionError (bs : Bytes) : Option (ActionError × Bytes) :=
  (decOpt decU64 bs).bind (fun p =>
    (decActionErrorKind p.2).map (fun q => (⟨p.1, q.1⟩, q.2)))

theorem decActionError_enc (e : ActionError) (hw : wfActionError e)
    (rest : Bytes) : decActionError (encActionError e ++ rest) = some (e, rest) := by
  obtain ⟨i, k⟩ := e
  have hopt : ∀ rest2 : Bytes,
      decOpt decU64 (encOpt encU64 i ++ rest2) = some (i, rest2) := fun rest2 =>
    decOpt_encOpt encU64 decU64 i
      (fun y hy => decU64_encU64 y (hw.1 y hy)) rest2
  simp [encActionError, decActionError, List.append_assoc, hopt,
    decActionErrorKind_enc k hw.2]

/-- NEAR transaction execution error
(`near_primitives::errors::TxExecutionError`): an action error or an
invalid-transaction error. -/
inductive TxExecutionError where
  | actionError (e : ActionError)
  | invalidTxError (e : InvalidTxError)
deriving DecidableEq

/-- Payload bounds for `TxExecutionError`. -/
def wfTxExecutionError : TxExecutionError → Prop
  | .actionError e => wfActionError e
  | .invalidTxError e => wfInvalidTxError e

/-- Borsh for `TxExecutionError`. -/
def encTxExecutionError : TxExecutionError → Bytes
  | .actionError e => 0 :: encActionError e
  | .invalidTxError e => 1 :: encInvalidTxError e

/-- Borsh decoder for `TxExecutionError`. -/
def decTxExecutionError (bs : Bytes) : Option (TxExecutionError × Bytes) :=
  match bs with
  | 0 :: bs => (decActionError bs).map (fun p => (.actionError p.1, p.2))
  | 1 :: bs => (decInvalidTxError bs).map (fun p => (.invalidTxError p.1, p.2))
  | _ => none

theorem decTxExecutionError_enc (x : TxExecutionError)
    (hw : wfTxExecutionError x) (rest : Bytes) :
    decTxExecutionError (encTxExecutionError x ++ rest) = some (x, rest) := by
  cases x with
  | actionError e =>
    simp [encTxExecutionError, decTxExecutionError, decActionError_enc e hw]
  | invalidTxError e =>
    simp [encTxExecutionError, decTxExecutionError, decInvalidTxError_enc e hw]


end Bridge

namespace Bridge

/-! ## The canonical proof record

`bridge-sdk/near-rpc-client/src/light_client_proof.rs` redeclares the NEAR
RPC view structs, dropping the fields that are incompatible with the bridge
proof, and derives Borsh on the result. The structs below mirror those
declarations field for field, in declaration order. -/

/-- Outcome status (`near_primitives::views::ExecutionStatusView`). -/
inductive ExecutionStatusView where
  | unknown
  | failure (e : TxExecutionError)
  | successValue (v : Bytes)
  | successReceiptId (id : CryptoHash)
deriving DecidableEq

/-- Payload bounds for `ExecutionStatusView`. -/
def wfStatus : ExecutionStatusView → Prop
  | .unknown => True
  | .failure e => wfTxExecutionError e
  | .successValue v => v.length < 2 ^ 32
  | .successReceiptId id => wfHash id

/-- Borsh for `ExecutionStatusView`: variant tag, then the payload
(`SuccessValue` carries a `Vec<u8>`). -/
def encStatus : ExecutionStatusView → Bytes
  | .unknown => [0]
  | .failure e => 1 :: encTxExecutionError e
  | .successValue v => 2 :: encStr v
  | .successReceiptId id => 3 :: encHash id

/-- Borsh decoder for `ExecutionStatusView`. -/
def decStatus (bs : Bytes) : Option (ExecutionStatusView × Bytes) :=
  match bs with
  | 0 :: bs => some (.unknown, bs)
  | 1 :: bs => (decTxExecutionError bs).map (fun p => (.failure p.1, p.2))
  | 2 :: bs => (decStr bs).map (fun p => (.successValue p.1, p.2))
  | 3 :: bs => (decHash bs).map (fun p => (.successReceiptId p.1, p.2))
  | _ => none

theorem decStatus_enc (x : ExecutionStatusView) (hw : wfStatus x)
    (rest : Bytes) : decStatus (encStatus x ++ rest) = some (x, rest) := by
  cases x with
  | unknown => rfl
  | failure e => simp [encStatus, decStatus, decTxExecutionError_enc e hw]
  | successValue v => simp [encStatus, decStatus, decStr_encStr v hw]
  | successReceiptId id => simp [encStatus, decStatus, decHash_encHash id hw]

/-- The canonical outcome view (`ExecutionOutcomeView` in
`light_client_proof.rs`): the source view minus its `metadata` field. -/
structure ExecutionOutcomeView where
  logs : List Bytes
  receipt_ids : List CryptoHash
  gas_burnt : Nat
  tokens_burnt : Nat
  executor_id : AccountId
  status : ExecutionStatusView
deriving DecidableEq

/-- Field bounds for the canonical outcome view: `gas_burnt` is a `u64`,
`tokens_burnt` a `u128`, lengths fit `u32`, hashes are 32 bytes. -/
def wfOutcome (o : ExecutionOutcomeView) : Prop :=
  (o.logs.length < 2 ^ 32 ∧ ∀ l ∈ o.logs, l.length < 2 ^ 32) ∧
  (o.receipt_ids.length < 2 ^ 32 ∧ ∀ h ∈ o.receipt_ids, wfHash h) ∧
  o.gas_burnt < 2 ^ 64 ∧
  o.tokens_burnt < 2 ^ 128 ∧
  o.executor_id.length < 2 ^ 32 ∧
  wfStatus o.status

/-- Borsh for the canonical outcome view: the six remaining fields in
declaration order. -/
def encOutcome (o : ExecutionOutcomeView) : Bytes :=
  encVec encStr o.logs ++ encVec encHash o.receipt_ids ++
    encU64 o.gas_burnt ++ encU128 o.tokens_burnt ++
    encAccount o.executor_id ++ encStatus o.status

/-- Borsh decoder for the canonical outcome view. -/
def decOutcome (bs : Bytes) : Option (ExecutionOutcomeView × Bytes) :=
  (decVec decStr bs).bind (fun p1 =>
  (decVec decHash p1.2).bind (fun p2 =>
  (decU64 p2.2).bind (fun p3 =>
  (decU128 p3.2).bind (fun p4 =>
  (decAccount p4.2).bind (fun p5 =>
  (decStatus p5.2).map (fun p6 =>
    (⟨p1.1, p2.1, p3.1, p4.1, p5.1, p6.1⟩, p6.2)))))))

theorem decOutcome_enc (o : ExecutionOutcomeView) (hw : wfOutcome o)
    (rest : Bytes) : decOutcome (encOutcome o ++ rest) = some (o, rest) := by
  obtain ⟨logs, rids, gas, tokens, ex, st⟩ := o
  obtain ⟨⟨h1, h2⟩, ⟨h3, h4⟩, h5, h6, h7, h8⟩ := hw
  have hlogs : ∀ r2 : Bytes,
      decVec decStr (encVec encStr logs ++ r2) = some (logs, r2) := fun r2 =>
    decVec_encVec encStr decStr logs h1
      (fun l hl => decStr_encStr l (h2 l hl)) r2
  have hrids : ∀ r2 : Bytes,
      decVec decHash (encVec encHash rids ++ r2) = some (rids, r2) := fun r2 =>
    decVec_encVec encHash decHash rids h3
      (fun h hh => decHash_encHash h (h4 h hh)) r2
  simp [encOutcome, decOutcome, List.append_assoc, hlogs, hrids,
    decU64_encU64 gas h5, decU128_encU128 tokens h6,
    decAccount_encAccount ex h7, decStatus_enc st h8]

/-- The outcome together with its identifying data
(`ExecutionOutcomeWithIdView` in `light_client_proof.rs`). -/
structure ExecutionOutcomeWithIdView where
  proof : MerklePath
  block_hash : CryptoHash
  id : CryptoHash
  outcome : ExecutionOutcomeView
deriving DecidableEq

/-- Field bounds for `ExecutionOutcomeWithIdView`. -/
def wfOutcomeWithId (o : ExecutionOutcomeWithIdView) : Prop :=
  wfPath o.proof ∧ wfHash o.block_hash ∧ wfHash o.id ∧ wfOutcome o.outcome

/-- Borsh for `ExecutionOutcomeWithIdView`: the four fields in declaration
order. -/
def encOutcomeWithId (o : ExecutionOutcomeWithIdView) : Bytes :=
  encPath o.proof ++ encHash o.block_hash ++ encHash o.id ++
    encOutcome o.outcome

/-- Borsh decoder for `ExecutionOutcomeWithIdView`. -/
def decOutcomeWithId (bs : Bytes) : Option (ExecutionOutcomeWithIdView × Bytes) :=
  (decPath bs).bind (fun p1 =>
  (decHash p1.2).bind (fun p2 =>
  (decHash p2.2).bind (fun p3 =>
  (decOutcome p3.2).map (fun p4 =>
    (⟨p1.1, p2.1, p3.1, p4.1⟩, p4.2)))))

theorem decOutcomeWithId_enc (o : ExecutionOutcomeWithIdView)
    (hw : wfOutcomeWithId o) (rest : Bytes) :
    decOutcomeWithId (encOutcomeWithId o ++ rest) = some (o, rest) := by
  obtain ⟨pr, bh, id, oc⟩ := o
  obtain ⟨h1, h2, h3, h4⟩ := hw
  simp [encOutcomeWithId, decOutcomeWithId, List.append_assoc,
    decPath_encPath pr h1, decHash_encHash bh h2, decHash_encHash id h3,
    decOutcome_enc oc h4]

/-- The canonical inner-lite header view (`BlockHeaderInnerLiteView` in
`light_client_proof.rs`): the source view minus its wall-clock `timestamp`
field, keeping `timestamp_nanosec`. -/
structure BlockHeaderInnerLiteView where
  height : Nat
  epoch_id : CryptoHash
  next_epoch_id : CryptoHash
  prev_state_root : CryptoHash
  outcome_root : CryptoHash
  timestamp_nanosec : Nat
  next_bp_hash : CryptoHash
  block_merkle_root : CryptoHash
deriving DecidableEq

/-- Field bounds for the canonical inner-lite view: `height` and
`timestamp_nanosec` are `u64`, hashes are 32 bytes. -/
def wfInnerLite (v : BlockHeaderInnerLiteView) : Prop :=
  v.height < 2 ^ 64 ∧ wfHash v.epoch_id ∧ wfHash v.next_epoch_id ∧
    wfHash v.prev_state_root ∧ wfHash v.outcome_root ∧
    v.timestamp_nanosec < 2 ^ 64 ∧ wfHash v.next_bp_hash ∧
    wfHash v.block_merkle_root

/-- Borsh for the canonical inner-lite view: the eight remaining fields in
declaration order. -/
def encInnerLite (v : BlockHeaderInnerLiteView) : Bytes :=
  encU64 v.height ++ encHash v.epoch_id ++ encHash v.next_epoch_id ++
    encHash v.prev_state_root ++ encHash v.outcome_root ++
    encU64 v.timestamp_nanosec ++ encHash v.next_bp_hash ++
    encHash v.block_merkle_root

/-- Borsh decoder for the canonical inner-lite view. -/
def decInnerLite (bs : Bytes) : Option (BlockHeaderInnerLiteView × Bytes) :=
  (decU64 bs).bind (fun p1 =>
  (decHash p1.2).bind (fun p2 =>
  (decHash p2.2).bind (fun p3 =>
  (decHash p3.2).bind (fun p4 =>
  (decHash p4.2).bind (fun p5 =>
  (decU64 p5.2).bind (fun p6 =>
  (decHash p6.2).bind (fun p7 =>
  (decHash p7.2).map (fun p8 =>
    (⟨p1.1, p2.1, p3.1, p4.1, p5.1, p6.1, p7.1, p8.1⟩, p8.2)))))))))

theorem decInnerLite_enc (v : BlockHeaderInnerLiteView) (hw : wfInnerLite v)
    (rest : Bytes) : decInnerLite (encInnerLite v ++ rest) = some (v, rest) := by
  obtain ⟨h, e1, e2, ps, outr, ts, nbp, bmr⟩ := v
  obtain ⟨h1, h2, h3, h4, h5, h6, h7, h8⟩ := hw
  simp [encInnerLite, decInnerLite, List.append_assoc,
    decU64_encU64 h h1, decHash_encHash e1 h2, decHash_encHash e2 h3,
    decHash_encHash ps h4, decHash_encHash outr h5, decU64_encU64 ts h6,
    decHash_encHash nbp h7, decHash_encHash bmr h8]

/-- The canonical lite block view (`LightClientBlockLiteView` in
`light_client_proof.rs`). -/
structure LightClientBlockLiteView where
  prev_block_hash : CryptoHash
  inner_rest_hash : CryptoHash
  inner_lite : BlockHeaderInnerLiteView
deriving DecidableEq

/-- Field bounds for the canonical lite block view. -/
def wfBlockLite (v : LightClientBlockLiteView) : Prop :=
  wfHash v.prev_block_hash ∧ wfHash v.inner_rest_hash ∧
    wfInnerLite v.inner_lite

/-- Borsh for the canonical lite block view: the three fields in
declaration order. -/
def encBlockLite (v : LightClientBlockLiteView) : Bytes :=
  encHash v.prev_block_hash ++ encHash v.inner_rest_hash ++
    encInnerLite v.inner_lite

/-- Borsh decoder for the canonical lite block view. -/
def decBlockLite (bs : Bytes) : Option (LightClientBlockLiteView × Bytes) :=
  (decHash bs).bind (fun p1 =>
  (decHash p1.2).bind (fun p2 =>
  (decInnerLite p2.2).map (fun p3 =>
    (⟨p1.1, p2.1, p3.1⟩, p3.2))))

theorem decBlockLite_enc (v : LightClientBlockLiteView) (hw : wfBlockLite v)
    (rest : Bytes) : decBlockLite (encBlockLite v ++ rest) = some (v, rest) := by
  obtain ⟨pb, ir, il⟩ := v
  obtain ⟨h1, h2, h3⟩ := hw
  simp [encBlockLite, decBlockLite, List.append_assoc,
    decHash_encHash pb h1, decHash_encHash ir h2, decInnerLite_enc il h3]

/-- The canonical proof record (`LightClientExecutionProof` in
`light_client_proof.rs`). -/
structure LightClientExecutionProof where
  outcome_proof : ExecutionOutcomeWithIdView
  outcome_root_proof : MerklePath
  block_header_lite : LightClientBlockLiteView
  block_proof : MerklePath
deriving DecidableEq

/-- Field bounds for the canonical proof record: every value obtained from
a Rust `LightClientExecutionProof` satisfies them by typing. -/
def wfProof (p : LightClientExecutionProof) : Prop :=
  wfOutcomeWithId p.outcome_proof ∧ wfPath p.outcome_root_proof ∧
    wfBlockLite p.block_header_lite ∧ wfPath p.block_proof

/-- Borsh for the canonical proof record: the four fields in declaration
order (`BorshSerialize` derive). -/
def encProof (p : LightClientExecutionProof) : Bytes :=
  encOutcomeWithId p.outcome_proof ++ encPath p.outcome_root_proof ++
    encBlockLite p.block_header_lite ++ encPath p.block_proof

/-- Borsh decoder for the canonical proof record (`BorshDeserialize`
derive). -/
def decProof (bs : Bytes) : Option (LightClientExecutionProof × Bytes) :=
  (decOutcomeWithId bs).bind (fun p1 =>
  (decPath p1.2).bind (fun p2 =>
  (decBlockLite p2.2).bind (fun p3 =>
  (decPath p3.2).map (fun p4 =>
    (⟨p1.1, p2.1, p3.1, p4.1⟩, p4.2)))))

theorem decProof_enc (p : LightClientExecutionProof) (hw : wfProof p)
    (rest : Bytes) : decProof (encProof p ++ rest) = some (p, rest) := by
  obtain ⟨op, orp, bhl, bp⟩ := p
  obtain ⟨h1, h2, h3, h4⟩ := hw
  simp [encProof, decProof, List.append_assoc,
    decOutcomeWithId_enc op h1, decPath_encPath orp h2,
    decBlockLite_enc bhl h3, decPath_encPath bp h4]

/-- Borsh `try_from_slice` for the proof record: the whole input must be
consumed, mirroring `BorshDeserialize::try_from_slice` in the repository's
round-trip test. -/
def tryFromSlice (bs : Bytes) : Option LightClientExecutionProof :=
  match decProof bs with
  | some (p, []) => some p
  | _ => none

theorem tryFromSlice_encProof (p : LightClientExecutionProof) (hw : wfProof p) :
    tryFromSlice (encProof p) = some p := by
  have h := decProof_enc p hw []
  rw [List.append_nil] at h
  simp [tryFromSlice, h]

end Bridge

namespace Bridge

/-! ## Proof normalisation (C1)

The NEAR RPC returns richer view structs
(`near_primitives::views::{ExecutionOutcomeView, ExecutionOutcomeWithIdView,
BlockHeaderInnerLiteView, LightClientBlockLiteView}` and
`RpcLightClientExecutionProofResponse`).  `light_client_proof.rs` converts
them into the canonical structs via `From` impls that copy every field and
drop `outcome.metadata` and `inner_lite.timestamp`.  The `Rpc`-prefixed
structs below are the source views; the conversion functions mirror the
`From` impls line by line. -/

/-- Per-parameter gas profile entry
(`near_primitives::views::CostGasUsed`). -/
structure CostGasUsed where
  cost_category : Bytes
  cost : Bytes
  gas_used : Nat
deriving DecidableEq

/-- Outcome metadata (`near_primitives::views::ExecutionMetadataView`):
dropped by the normaliser. -/
structure ExecutionMetadataView where
  version : Nat
  gas_profile : Option (List CostGasUsed)
deriving DecidableEq

/-- The source outcome view (`near_primitives::views::ExecutionOutcomeView`),
including the `metadata` field. -/
structure RpcExecutionOutcomeView where
  logs : List Bytes
  receipt_ids : List CryptoHash
  gas_burnt : Nat
  tokens_burnt : Nat
  executor_id : AccountId
  status : ExecutionStatusView
  metadata : ExecutionMetadataView
deriving DecidableEq

/-- The source outcome-with-id view
(`near_primitives::views::ExecutionOutcomeWithIdView`). -/
structure RpcExecutionOutcomeWithIdView where
  proof : MerklePath
  block_hash : CryptoHash
  id : CryptoHash
  outcome : RpcExecutionOutcomeView
deriving DecidableEq

/-- The source inner-lite header view
(`near_primitives::views::BlockHeaderInnerLiteView`), including both the
wall-clock `timestamp` and `timestamp_nanosec`. -/
structure RpcBlockHeaderInnerLiteView where
  height : Nat
  epoch_id : CryptoHash
  next_epoch_id : CryptoHash
  prev_state_root : CryptoHash
  outcome_root : CryptoHash
  timestamp : Nat
  timestamp_nanosec : Nat
  next_bp_hash : CryptoHash
  block_merkle_root : CryptoHash
deriving DecidableEq

/-- The source lite block view
(`near_primitives::views::LightClientBlockLiteView`). -/
structure RpcLightClientBlockLiteView where
  prev_block_hash : CryptoHash
  inner_rest_hash : CryptoHash
  inner_lite : RpcBlockHeaderInnerLiteView
deriving DecidableEq

/-- The RPC light-client execution proof response
(`RpcLightClientExecutionProofResponse`). -/
structure RpcLightClientExecutionProofResponse where
  outcome_proof : RpcExecutionOutcomeWithIdView
  outcome_root_proof : MerklePath
  block_header_lite : RpcLightClientBlockLiteView
  block_proof : MerklePath
deriving DecidableEq

/-- `From<near_primitives::views::ExecutionOutcomeView> for
ExecutionOutcomeView`: copies six fields, drops `metadata`. -/
def outcomeViewFromRpc (item : RpcExecutionOutcomeView) : ExecutionOutcomeView where
  logs := item.logs
  receipt_ids := item.receipt_ids
  gas_burnt := item.gas_burnt
  tokens_burnt := item.tokens_burnt
  executor_id := item.executor_id
  status := item.status

/-- `From<near_primitives::views::ExecutionOutcomeWithIdView> for
ExecutionOutcomeWithIdView`. -/
def outcomeWithIdFromRpc (item : RpcExecutionOutcomeWithIdView) :
    ExecutionOutcomeWithIdView where
  proof := item.proof
  block_hash := item.block_hash
  id := item.id
  outcome := outcomeViewFromRpc item.outcome

/-- `From<near_primitives::views::BlockHeaderInnerLiteView> for
BlockHeaderInnerLiteView`: copies eight fields, drops `timestamp`, keeps
`timestamp_nanosec`. -/
def innerLiteFromRpc (item : RpcBlockHeaderInnerLiteView) :
    BlockHeaderInnerLiteView where
  height := item.height
  epoch_id := item.epoch_id
  next_epoch_id := item.next_epoch_id
  prev_state_root := item.prev_state_root
  outcome_root := item.outcome_root
  timestamp_nanosec := item.timestamp_nanosec
  next_bp_hash := item.next_bp_hash
  block_merkle_root := item.block_merkle_root

/-- `From<near_primitives::views::LightClientBlockLiteView> for
LightClientBlockLiteView`. -/
def blockLiteFromRpc (item : RpcLightClientBlockLiteView) :
    LightClientBlockLiteView where
  prev_block_hash := item.prev_block_hash
  inner_rest_hash := item.inner_rest_hash
  inner_lite := innerLiteFromRpc item.inner_lite

/-- `From<RpcLightClientExecutionProofResponse> for
LightClientExecutionProof`. -/
def proofFromRpc (item : RpcLightClientExecutionProofResponse) :
    LightClientExecutionProof where
  outcome_proof := outcomeWithIdFromRpc item.outcome_proof
  outcome_root_proof := item.outcome_root_proof
  block_header_lite := blockLiteFromRpc item.block_header_lite
  block_proof := item.block_proof

/-- Replace the `metadata` of the outcome inside `outcome_proof`. -/
def setOutcomeMetadata (r : RpcLightClientExecutionProofResponse)
    (m : ExecutionMetadataView) : RpcLightClientExecutionProofResponse :=
  { r with outcome_proof :=
      { r.outcome_proof with outcome :=
          { r.outcome_proof.outcome with metadata := m } } }

/-- Replace the wall-clock `timestamp` of `block_header_lite.inner_lite`. -/
def setInnerLiteTimestamp (r : RpcLightClientExecutionProofResponse)
    (ts : Nat) : RpcLightClientExecutionProofResponse :=
  { r with block_header_lite :=
      { r.block_header_lite with inner_lite :=
          { r.block_header_lite.inner_lite with timestamp := ts } } }

end Bridge

namespace Bridge

/-- C1: for every NEAR light-client execution proof response, the proof
normaliser produces the canonical record whose every field is the
corresponding source field, read off in source order — `outcome_proof`
(proof, block hash, id, and the outcome's logs, receipt ids, gas burnt,
tokens burnt, executor id and status), `outcome_root_proof`,
`block_header_lite` (prev block hash, inner rest hash, and the inner
lite's height, epoch ids, state root, outcome root, `timestamp_nanosec`,
next-bp hash and block merkle root) and `block_proof` — and the result is
invariant under the two dropped source fields: the outcome's `metadata`
and the inner lite's wall-clock `timestamp`. -/
theorem C1_normalizer_keeps_all_fields_but_metadata_and_timestamp
    (r : RpcLightClientExecutionProofResponse) :
    proofFromRpc r =
      { outcome_proof :=
          { proof := r.outcome_proof.proof
            block_hash := r.outcome_proof.block_hash
            id := r.outcome_proof.id
            outcome :=
              { logs := r.outcome_proof.outcome.logs
                receipt_ids := r.outcome_proof.outcome.receipt_ids
                gas_burnt := r.outcome_proof.outcome.gas_burnt
                tokens_burnt := r.outcome_proof.outcome.tokens_burnt
                executor_id := r.outcome_proof.outcome.executor_id
                status := r.outcome_proof.outcome.status } }
        outcome_root_proof := r.outcome_root_proof
        block_header_lite :=
          { prev_block_hash := r.block_header_lite.prev_block_hash
            inner_rest_hash := r.block_header_lite.inner_rest_hash
            inner_lite :=
              { height := r.block_header_lite.inner_lite.height
                epoch_id := r.block_header_lite.inner_lite.epoch_id
                next_epoch_id := r.block_header_lite.inner_lite.next_epoch_id
                prev_state_root := r.block_header_lite.inner_lite.prev_state_root
                outcome_root := r.block_header_lite.inner_lite.outcome_root
                timestamp_nanosec := r.block_header_lite.inner_lite.timestamp_nanosec
                next_bp_hash := r.block_header_lite.inner_lite.next_bp_hash
                block_merkle_root := r.block_header_lite.inner_lite.block_merkle_root } }
        block_proof := r.block_proof } ∧
    ∀ (m : ExecutionMetadataView) (ts : Nat),
      proofFromRpc (setInnerLiteTimestamp (setOutcomeMetadata r m) ts) =
        proofFromRpc r :=
  ⟨rfl, fun _ _ => rfl⟩

end Bridge

namespace Bridge

/-- The first sample proof from the repository's `test_decode_encode_valid_proofs`. -/
def sampleProof1 : Bytes := [
  2, 0, 0, 0, 94, 80, 143, 247, 196, 67, 213, 181, 12, 96, 2, 225, 134, 152, 172, 185, 116,
  170, 120, 121, 80, 161, 120, 143, 213, 164, 18, 28, 255, 41, 157, 254, 0, 50, 124, 75, 91,
  220, 11, 57, 147, 24, 136, 155, 151, 154, 218, 101, 225, 221, 40, 74, 196, 23, 41, 126, 67,
  180, 201, 88, 71, 69, 217, 154, 204, 1, 219, 60, 176, 189, 228, 248, 214, 199, 82, 229, 139,
  28, 78, 113, 199, 197, 240, 164, 181, 109, 79, 202, 236, 164, 117, 175, 79, 249, 28, 225, 28,
  72, 30, 90, 182, 8, 48, 130, 2, 61, 61, 17, 125, 199, 50, 194, 46, 223, 128, 65, 192, 19,
  100, 191, 139, 188, 61, 130, 153, 160, 172, 106, 70, 225, 0, 0, 0, 0, 1, 0, 0, 0, 203, 212,
  228, 14, 98, 205, 37, 195, 87, 193, 29, 89, 196, 128, 132, 231, 3, 201, 11, 191, 69, 19, 147,
  209, 117, 37, 46, 205, 77, 233, 165, 231, 96, 166, 208, 136, 30, 3, 0, 0, 0, 96, 26, 124, 46,
  217, 162, 151, 18, 0, 0, 0, 0, 0, 0, 0, 19, 0, 0, 0, 102, 97, 99, 116, 111, 114, 121, 46, 98,
  114, 105, 100, 103, 101, 46, 110, 101, 97, 114, 2, 57, 0, 0, 0, 0, 0, 0, 72, 51, 236, 149,
  208, 162, 176, 65, 1, 0, 0, 0, 0, 0, 26, 180, 50, 4, 161, 149, 160, 253, 55, 237, 236, 98,
  20, 130, 175, 211, 121, 46, 249, 11, 217, 93, 71, 226, 247, 114, 61, 70, 61, 88, 92, 119, 74,
  63, 2, 8, 54, 182, 220, 242, 2, 0, 0, 0, 17, 84, 73, 159, 117, 193, 129, 109, 193, 251, 233,
  233, 45, 49, 64, 1, 65, 167, 104, 201, 57, 78, 181, 38, 60, 10, 211, 225, 14, 181, 220, 81,
  1, 193, 197, 81, 156, 53, 78, 222, 1, 218, 37, 68, 25, 0, 152, 96, 36, 202, 168, 33, 244,
  187, 90, 185, 32, 199, 40, 163, 31, 4, 89, 125, 85, 0, 175, 227, 180, 122, 12, 33, 7, 240,
  29, 221, 113, 55, 42, 148, 13, 241, 6, 253, 81, 18, 96, 61, 240, 63, 139, 18, 184, 121, 185,
  170, 0, 131, 120, 181, 2, 22, 120, 233, 136, 157, 83, 160, 47, 22, 98, 141, 176, 189, 173,
  159, 222, 212, 91, 154, 188, 250, 217, 22, 179, 234, 27, 159, 57, 63, 92, 177, 79, 5, 0, 0,
  0, 0, 229, 40, 58, 62, 126, 3, 166, 136, 37, 78, 87, 84, 92, 142, 215, 50, 91, 120, 246, 10,
  149, 223, 46, 59, 114, 175, 150, 64, 35, 229, 133, 234, 240, 151, 192, 107, 18, 208, 126,
  132, 227, 115, 243, 211, 208, 122, 177, 111, 35, 182, 90, 227, 55, 121, 22, 12, 117, 137,
  101, 155, 29, 28, 49, 15, 113, 21, 71, 39, 213, 139, 114, 138, 204, 202, 197, 6, 93, 185, 95,
  57, 37, 69, 27, 16, 224, 41, 189, 139, 48, 200, 146, 162, 88, 225, 175, 248, 238, 21, 136,
  111, 186, 241, 31, 178, 105, 221, 127, 128, 215, 72, 166, 228, 192, 172, 98, 190, 186, 171,
  215, 179, 16, 5, 113, 122, 144, 195, 17, 213, 147, 140, 206, 160, 206, 248, 83, 23, 32, 100,
  122, 244, 60, 128, 77, 153, 186, 0, 76, 71, 38, 78, 25, 81, 54, 216, 1, 185, 20, 172, 234,
  165, 208, 210, 250, 135, 143, 188, 27, 29, 252, 116, 183, 100, 154, 16, 137, 185, 46, 3, 13,
  7, 49, 189, 78, 43, 15, 55, 52, 141, 108, 120, 132, 194, 238, 116, 138, 81, 196, 246, 129,
  46, 22, 0, 0, 0, 111, 193, 58, 218, 154, 25, 88, 227, 208, 74, 84, 9, 87, 228, 109, 114, 150,
  144, 55, 80, 97, 29, 160, 131, 59, 97, 247, 99, 230, 141, 54, 103, 1, 54, 163, 170, 100, 210,
  161, 180, 229, 127, 52, 240, 49, 219, 20, 132, 204, 162, 95, 11, 71, 141, 201, 49, 204, 37,
  13, 166, 131, 82, 57, 159, 183, 1, 78, 217, 164, 143, 12, 214, 60, 117, 104, 215, 239, 148,
  79, 251, 163, 169, 128, 134, 113, 228, 43, 117, 166, 113, 41, 188, 158, 13, 82, 44, 100, 103,
  0, 251, 80, 122, 86, 199, 207, 132, 0, 46, 74, 4, 92, 172, 232, 110, 133, 171, 235, 54, 71,
  171, 104, 57, 46, 77, 181, 1, 9, 217, 8, 112, 76, 1, 200, 209, 183, 109, 170, 52, 160, 217,
  254, 237, 156, 73, 227, 163, 203, 9, 131, 116, 159, 129, 216, 195, 114, 170, 194, 175, 247,
  243, 199, 116, 13, 102, 0, 191, 42, 10, 15, 45, 31, 87, 182, 78, 235, 72, 139, 26, 133, 6,
  88, 68, 20, 245, 133, 52, 172, 80, 250, 248, 154, 100, 143, 222, 132, 150, 37, 0, 127, 43,
  64, 205, 126, 100, 105, 143, 12, 222, 12, 75, 144, 233, 182, 133, 68, 22, 124, 22, 207, 188,
  222, 182, 215, 41, 66, 228, 191, 210, 5, 8, 0, 60, 122, 107, 157, 142, 92, 187, 227, 155,
  238, 192, 177, 182, 185, 104, 144, 211, 33, 200, 73, 7, 8, 241, 105, 77, 111, 186, 34, 38,
  34, 20, 88, 0, 185, 29, 111, 252, 240, 34, 163, 147, 151, 179, 164, 154, 232, 55, 204, 93,
  36, 108, 235, 26, 86, 242, 233, 152, 103, 65, 122, 150, 37, 165, 182, 90, 0, 33, 214, 45, 59,
  105, 209, 107, 255, 230, 49, 116, 253, 214, 118, 123, 7, 215, 143, 172, 60, 174, 72, 70, 250,
  2, 192, 83, 96, 89, 219, 211, 242, 0, 118, 80, 188, 255, 6, 24, 100, 41, 29, 124, 76, 168,
  64, 92, 103, 96, 245, 52, 245, 32, 85, 165, 82, 2, 70, 17, 31, 118, 22, 198, 124, 127, 0, 17,
  205, 152, 92, 15, 87, 94, 149, 160, 251, 154, 45, 210, 147, 81, 197, 239, 53, 164, 195, 159,
  89, 203, 86, 245, 136, 60, 114, 162, 55, 169, 69, 0, 165, 173, 51, 211, 224, 30, 161, 254,
  109, 14, 152, 97, 160, 248, 11, 129, 53, 113, 16, 91, 74, 28, 63, 62, 252, 243, 235, 22, 42,
  184, 202, 215, 0, 171, 11, 18, 108, 25, 161, 4, 113, 96, 53, 244, 216, 43, 231, 68, 162, 195,
  136, 209, 84, 183, 150, 52, 53, 111, 123, 9, 213, 109, 249, 89, 111, 1, 66, 2, 233, 230, 239,
  227, 117, 46, 12, 57, 149, 228, 203, 5, 25, 231, 133, 150, 221, 37, 103, 171, 254, 57, 2,
  166, 195, 247, 4, 17, 41, 211, 0, 89, 83, 49, 45, 77, 12, 32, 75, 110, 219, 190, 79, 153,
  202, 140, 112, 80, 106, 87, 252, 20, 196, 164, 110, 97, 253, 128, 13, 74, 6, 81, 94, 1, 218,
  68, 102, 106, 91, 189, 75, 29, 104, 130, 180, 187, 131, 139, 49, 3, 154, 63, 208, 152, 82,
  249, 136, 131, 46, 215, 91, 78, 164, 205, 164, 58, 0, 93, 193, 205, 18, 1, 3, 165, 9, 97,
  102, 17, 229, 195, 56, 232, 233, 238, 43, 25, 184, 167, 182, 94, 219, 144, 168, 122, 226, 24,
  190, 3, 202, 0, 163, 44, 186, 252, 216, 108, 156, 126, 114, 48, 52, 89, 62, 133, 77, 120, 13,
  132, 175, 57, 44, 128, 168, 40, 73, 86, 128, 136, 16, 41, 143, 2, 0, 153, 121, 144, 24, 174,
  83, 175, 223, 211, 145, 4, 98, 89, 51, 233, 137, 170, 110, 132, 143, 244, 174, 77, 215, 165,
  197, 161, 143, 41, 158, 164, 39, 0, 42, 85, 134, 8, 158, 216, 63, 200, 5, 100, 97, 135, 65,
  8, 129, 158, 6, 30, 155, 110, 47, 80, 35, 243, 128, 72, 233, 220, 82, 71, 3, 56, 0, 18, 75,
  184, 57, 165, 185, 196, 72, 86, 5, 76, 109, 128, 189, 82, 41, 172, 43, 64, 250, 138, 12, 212,
  73, 17, 98, 159, 41, 91, 17, 240, 130, 0]

/-- The second sample proof from the repository's `test_decode_encode_valid_proofs`. -/
def sampleProof2 : Bytes := [
  1, 0, 0, 0, 175, 234, 46, 214, 135, 137, 248, 74, 153, 244, 243, 76, 141, 82, 163, 132, 58,
  162, 24, 179, 211, 105, 49, 33, 133, 42, 34, 55, 211, 80, 39, 121, 1, 6, 251, 28, 87, 124,
  208, 139, 72, 70, 86, 223, 210, 247, 46, 153, 241, 190, 156, 72, 224, 227, 156, 209, 177,
  220, 247, 179, 93, 176, 99, 251, 66, 133, 107, 72, 198, 207, 8, 121, 198, 131, 117, 170, 85,
  68, 177, 146, 7, 213, 124, 67, 0, 84, 115, 10, 162, 209, 80, 227, 51, 125, 14, 2, 181, 0, 0,
  0, 0, 1, 0, 0, 0, 251, 85, 74, 68, 180, 63, 40, 139, 115, 231, 163, 71, 248, 203, 108, 151,
  82, 187, 25, 161, 248, 177, 214, 205, 223, 24, 181, 63, 33, 47, 61, 48, 95, 190, 34, 98, 77,
  3, 0, 0, 0, 127, 60, 149, 56, 156, 224, 174, 19, 0, 0, 0, 0, 0, 0, 0, 6, 0, 0, 0, 97, 117,
  114, 111, 114, 97, 2, 56, 0, 0, 0, 128, 46, 204, 192, 73, 132, 141, 4, 0, 0, 0, 0, 0, 0, 0,
  0, 230, 208, 93, 76, 71, 167, 170, 163, 254, 214, 179, 0, 109, 205, 128, 40, 158, 27, 51, 87,
  107, 250, 212, 44, 252, 78, 252, 150, 245, 41, 215, 134, 214, 67, 255, 74, 139, 137, 250, 82,
  2, 0, 0, 0, 23, 104, 67, 76, 12, 48, 143, 64, 70, 94, 175, 59, 78, 231, 150, 140, 77, 139,
  215, 42, 125, 125, 23, 147, 178, 234, 45, 227, 192, 128, 130, 242, 0, 168, 172, 128, 207, 78,
  58, 58, 208, 32, 133, 92, 40, 166, 238, 4, 40, 238, 160, 81, 254, 6, 104, 145, 59, 57, 253,
  101, 15, 30, 6, 111, 184, 1, 149, 189, 100, 46, 28, 59, 156, 213, 136, 51, 96, 7, 34, 146,
  20, 241, 71, 193, 106, 61, 2, 68, 29, 53, 78, 63, 150, 38, 243, 80, 228, 252, 239, 42, 146,
  210, 244, 238, 179, 245, 171, 81, 32, 76, 148, 178, 204, 119, 140, 27, 126, 28, 204, 51, 45,
  211, 241, 172, 97, 229, 38, 93, 86, 223, 131, 255, 79, 5, 0, 0, 0, 0, 229, 40, 58, 62, 126,
  3, 166, 136, 37, 78, 87, 84, 92, 142, 215, 50, 91, 120, 246, 10, 149, 223, 46, 59, 114, 175,
  150, 64, 35, 229, 133, 234, 240, 151, 192, 107, 18, 208, 126, 132, 227, 115, 243, 211, 208,
  122, 177, 111, 35, 182, 90, 227, 55, 121, 22, 12, 117, 137, 101, 155, 29, 28, 49, 15, 12,
  154, 2, 173, 25, 193, 25, 127, 149, 110, 178, 249, 171, 92, 25, 219, 16, 13, 69, 181, 182,
  63, 221, 90, 222, 72, 112, 110, 111, 130, 110, 19, 104, 104, 26, 25, 17, 75, 102, 178, 124,
  45, 208, 53, 230, 67, 99, 136, 142, 117, 69, 160, 237, 178, 148, 119, 217, 130, 84, 72, 253,
  228, 110, 188, 97, 233, 75, 92, 121, 13, 84, 23, 32, 100, 122, 244, 60, 128, 77, 153, 186, 0,
  76, 71, 38, 78, 25, 81, 54, 216, 1, 185, 20, 172, 234, 165, 208, 210, 250, 135, 143, 188, 27,
  29, 182, 146, 177, 109, 132, 25, 172, 184, 6, 222, 242, 165, 21, 71, 226, 143, 139, 86, 186,
  53, 16, 36, 39, 46, 205, 2, 149, 247, 185, 232, 114, 34, 22, 0, 0, 0, 65, 68, 248, 107, 168,
  1, 229, 133, 171, 225, 100, 72, 178, 26, 57, 112, 78, 75, 4, 201, 170, 253, 70, 149, 128, 45,
  26, 98, 11, 39, 100, 122, 1, 163, 59, 219, 251, 98, 112, 51, 198, 9, 136, 221, 67, 20, 27,
  172, 7, 163, 255, 141, 63, 35, 46, 20, 6, 128, 223, 254, 211, 135, 183, 128, 128, 0, 53, 134,
  162, 239, 222, 216, 105, 245, 135, 0, 137, 106, 151, 1, 79, 92, 209, 233, 198, 157, 221, 245,
  35, 213, 48, 167, 255, 254, 27, 237, 185, 136, 1, 229, 98, 51, 78, 241, 241, 162, 65, 169,
  18, 250, 58, 134, 72, 34, 121, 80, 251, 230, 175, 238, 19, 208, 191, 83, 217, 217, 181, 96,
  71, 52, 145, 0, 119, 91, 11, 7, 204, 183, 120, 186, 48, 64, 170, 242, 29, 114, 188, 50, 229,
  220, 111, 73, 98, 5, 183, 203, 181, 25, 88, 220, 183, 152, 137, 203, 0, 38, 78, 187, 252, 53,
  82, 42, 16, 196, 136, 40, 103, 28, 19, 131, 40, 126, 71, 254, 41, 60, 27, 76, 191, 149, 163,
  74, 122, 223, 144, 249, 227, 1, 121, 67, 16, 160, 128, 251, 19, 174, 70, 59, 200, 233, 9, 17,
  171, 241, 25, 240, 151, 206, 163, 175, 117, 172, 182, 83, 119, 68, 242, 81, 18, 65, 1, 91,
  162, 31, 168, 39, 247, 116, 244, 98, 160, 17, 172, 64, 206, 17, 178, 209, 148, 213, 217, 152,
  251, 16, 15, 139, 134, 61, 217, 241, 4, 49, 121, 1, 54, 118, 51, 47, 229, 159, 188, 9, 122,
  205, 56, 0, 244, 251, 163, 155, 98, 243, 22, 46, 38, 242, 145, 161, 19, 192, 0, 132, 17, 111,
  103, 1, 1, 16, 219, 195, 146, 226, 191, 27, 145, 85, 73, 188, 193, 32, 250, 251, 224, 142,
  127, 27, 170, 234, 175, 45, 232, 241, 241, 7, 232, 175, 212, 144, 122, 0, 210, 184, 56, 201,
  17, 198, 27, 243, 245, 106, 16, 48, 14, 3, 61, 28, 154, 14, 253, 134, 92, 2, 190, 62, 44,
  144, 244, 80, 34, 24, 145, 25, 0, 205, 215, 15, 51, 252, 212, 255, 246, 56, 159, 237, 19,
  126, 138, 148, 64, 254, 95, 169, 118, 6, 242, 46, 221, 144, 84, 155, 153, 202, 140, 246, 212,
  0, 252, 48, 163, 41, 128, 209, 250, 208, 179, 213, 180, 93, 120, 26, 44, 126, 200, 43, 67,
  153, 28, 5, 26, 207, 66, 84, 125, 35, 202, 211, 149, 32, 1, 125, 105, 152, 242, 244, 134,
  211, 212, 211, 46, 23, 24, 116, 151, 225, 232, 182, 238, 20, 125, 231, 87, 177, 35, 78, 212,
  103, 20, 185, 47, 98, 62, 0, 73, 34, 9, 191, 188, 97, 125, 94, 138, 186, 177, 108, 58, 18, 5,
  102, 254, 50, 214, 169, 176, 63, 111, 48, 4, 155, 98, 151, 162, 118, 65, 2, 1, 206, 27, 211,
  175, 231, 174, 121, 24, 214, 227, 17, 114, 170, 8, 129, 158, 70, 14, 33, 99, 0, 106, 188, 76,
  27, 101, 191, 13, 198, 140, 223, 107, 0, 218, 68, 102, 106, 91, 189, 75, 29, 104, 130, 180,
  187, 131, 139, 49, 3, 154, 63, 208, 152, 82, 249, 136, 131, 46, 215, 91, 78, 164, 205, 164,
  58, 0, 93, 193, 205, 18, 1, 3, 165, 9, 97, 102, 17, 229, 195, 56, 232, 233, 238, 43, 25, 184,
  167, 182, 94, 219, 144, 168, 122, 226, 24, 190, 3, 202, 0, 163, 44, 186, 252, 216, 108, 156,
  126, 114, 48, 52, 89, 62, 133, 77, 120, 13, 132, 175, 57, 44, 128, 168, 40, 73, 86, 128, 136,
  16, 41, 143, 2, 0, 153, 121, 144, 24, 174, 83, 175, 223, 211, 145, 4, 98, 89, 51, 233, 137,
  170, 110, 132, 143, 244, 174, 77, 215, 165, 197, 161, 143, 41, 158, 164, 39, 0, 42, 85, 134,
  8, 158, 216, 63, 200, 5, 100, 97, 135, 65, 8, 129, 158, 6, 30, 155, 110, 47, 80, 35, 243,
  128, 72, 233, 220, 82, 71, 3, 56, 0, 18, 75, 184, 57, 165, 185, 196, 72, 86, 5, 76, 109, 128,
  189, 82, 41, 172, 43, 64, 250, 138, 12, 212, 73, 17, 98, 159, 41, 91, 17, 240, 130, 0]

/-- The third sample proof from the repository's `test_decode_encode_valid_proofs`. -/
def sampleProof3 : Bytes := [
  1, 0, 0, 0, 231, 81, 1, 119, 100, 169, 181, 188, 251, 107, 109, 155, 71, 236, 181, 67, 52,
  51, 111, 248, 95, 10, 172, 175, 136, 131, 245, 231, 184, 112, 99, 15, 0, 54, 250, 123, 8,
  126, 79, 223, 26, 145, 187, 205, 235, 196, 24, 209, 60, 170, 216, 177, 197, 85, 94, 70, 208,
  67, 80, 164, 115, 212, 169, 178, 145, 152, 162, 148, 231, 113, 210, 99, 69, 245, 75, 242,
  233, 91, 56, 146, 12, 205, 221, 116, 242, 149, 114, 30, 27, 7, 184, 153, 26, 14, 236, 46, 4,
  0, 0, 0, 0, 1, 0, 0, 0, 223, 223, 17, 208, 138, 147, 98, 27, 97, 114, 63, 240, 161, 165, 50,
  116, 127, 137, 106, 155, 68, 140, 147, 66, 210, 111, 89, 128, 28, 70, 135, 103, 108, 57, 64,
  16, 153, 2, 0, 0, 0, 236, 211, 130, 222, 85, 22, 124, 15, 0, 0, 0, 0, 0, 0, 0, 11, 0, 0, 0,
  101, 45, 110, 101, 97, 114, 46, 110, 101, 97, 114, 2, 37, 0, 0, 0, 0, 192, 141, 174, 67, 137,
  167, 66, 142, 221, 111, 112, 0, 0, 0, 0, 0, 183, 142, 62, 139, 211, 107, 50, 40, 50, 45, 10,
  157, 50, 113, 181, 251, 183, 153, 127, 163, 2, 0, 0, 0, 251, 70, 44, 180, 26, 236, 184, 244,
  247, 26, 135, 28, 248, 140, 125, 20, 76, 61, 36, 196, 117, 205, 151, 92, 46, 246, 150, 238,
  193, 41, 89, 77, 1, 220, 59, 193, 115, 138, 108, 15, 74, 189, 244, 179, 81, 133, 69, 76, 17,
  16, 15, 81, 181, 153, 108, 168, 130, 244, 95, 1, 89, 221, 104, 17, 249, 0, 52, 37, 205, 121,
  171, 57, 150, 10, 204, 7, 241, 34, 182, 28, 158, 67, 211, 23, 13, 164, 101, 24, 23, 250, 46,
  242, 68, 95, 136, 98, 246, 113, 100, 32, 3, 234, 195, 57, 74, 133, 78, 109, 155, 231, 152,
  111, 184, 225, 83, 84, 227, 76, 19, 133, 195, 10, 203, 214, 45, 156, 147, 127, 82, 101, 131,
  5, 75, 5, 0, 0, 0, 0, 235, 196, 229, 205, 146, 1, 59, 224, 209, 50, 211, 56, 152, 32, 10,
  136, 160, 114, 139, 198, 176, 55, 188, 146, 17, 249, 89, 87, 180, 119, 172, 169, 100, 107,
  106, 55, 226, 160, 184, 12, 171, 164, 132, 135, 111, 21, 87, 106, 70, 136, 81, 166, 167, 200,
  33, 229, 226, 149, 96, 63, 183, 241, 69, 126, 74, 25, 28, 80, 243, 19, 28, 224, 48, 32, 92,
  82, 51, 170, 107, 228, 65, 129, 67, 91, 213, 91, 93, 42, 72, 79, 223, 69, 74, 11, 211, 44,
  236, 217, 17, 68, 134, 24, 245, 79, 184, 165, 96, 232, 208, 225, 89, 26, 235, 151, 242, 17,
  117, 20, 246, 65, 188, 109, 53, 209, 13, 153, 139, 14, 18, 68, 34, 223, 2, 190, 82, 23, 181,
  243, 51, 244, 236, 55, 5, 240, 13, 179, 51, 6, 156, 75, 153, 231, 29, 235, 183, 96, 9, 237,
  64, 20, 237, 157, 129, 209, 188, 251, 77, 131, 253, 35, 68, 240, 23, 189, 200, 100, 251, 53,
  55, 141, 134, 34, 38, 82, 19, 187, 160, 137, 88, 98, 29, 178, 133, 69, 51, 16, 15, 122, 7,
  212, 23, 0, 0, 0, 52, 37, 205, 121, 171, 57, 150, 10, 204, 7, 241, 34, 182, 28, 158, 67, 211,
  23, 13, 164, 101, 24, 23, 250, 46, 242, 68, 95, 136, 98, 246, 113, 0, 57, 133, 11, 138, 173,
  147, 118, 123, 186, 31, 22, 244, 167, 28, 78, 186, 250, 104, 127, 134, 228, 143, 161, 97, 67,
  193, 212, 242, 199, 166, 197, 74, 1, 154, 133, 59, 161, 254, 126, 241, 121, 134, 47, 163, 85,
  208, 219, 212, 219, 32, 38, 200, 51, 10, 141, 181, 173, 52, 237, 109, 247, 51, 247, 112, 11,
  0, 41, 121, 25, 180, 153, 250, 140, 106, 203, 12, 249, 233, 133, 132, 67, 169, 14, 224, 45,
  78, 232, 95, 235, 82, 217, 126, 241, 8, 197, 158, 137, 45, 0, 252, 21, 64, 34, 107, 227, 250,
  6, 252, 186, 38, 73, 30, 149, 195, 101, 75, 56, 170, 104, 77, 162, 195, 125, 248, 102, 92,
  37, 227, 41, 133, 18, 0, 194, 107, 208, 206, 150, 187, 46, 236, 133, 38, 56, 152, 231, 228,
  16, 209, 34, 165, 35, 23, 63, 117, 48, 39, 203, 168, 218, 87, 80, 42, 157, 126, 1, 114, 42,
  168, 220, 134, 69, 24, 77, 203, 246, 218, 32, 172, 155, 133, 213, 140, 251, 255, 173, 162,
  36, 14, 125, 203, 126, 138, 50, 152, 164, 248, 218, 0, 198, 197, 133, 179, 149, 15, 170, 226,
  177, 93, 241, 39, 68, 193, 52, 47, 88, 16, 191, 89, 3, 30, 94, 9, 229, 240, 238, 184, 22,
  184, 28, 119, 1, 146, 29, 136, 177, 235, 195, 189, 116, 174, 132, 224, 152, 43, 31, 180, 190,
  42, 170, 225, 224, 76, 5, 208, 110, 19, 134, 247, 92, 95, 143, 6, 83, 1, 32, 18, 160, 181,
  159, 61, 92, 74, 175, 152, 121, 135, 219, 77, 84, 127, 28, 91, 10, 44, 137, 68, 153, 125,
  133, 115, 76, 10, 21, 159, 118, 0, 1, 33, 81, 254, 158, 227, 106, 38, 139, 229, 106, 85, 63,
  194, 94, 132, 202, 188, 53, 202, 94, 19, 74, 6, 107, 250, 96, 22, 9, 199, 19, 40, 90, 0, 54,
  60, 178, 99, 196, 169, 41, 73, 143, 192, 38, 20, 129, 218, 89, 221, 234, 207, 88, 32, 73, 2,
  155, 169, 211, 76, 195, 129, 194, 227, 72, 150, 1, 74, 48, 81, 168, 39, 123, 199, 131, 113,
  183, 246, 236, 25, 129, 11, 25, 94, 129, 200, 231, 162, 164, 228, 166, 148, 143, 169, 180,
  247, 180, 18, 52, 0, 181, 40, 34, 87, 16, 209, 99, 125, 107, 186, 13, 116, 230, 69, 127, 234,
  184, 86, 98, 114, 55, 147, 78, 9, 101, 145, 36, 69, 250, 201, 37, 119, 0, 74, 146, 86, 224,
  126, 146, 4, 43, 39, 240, 249, 249, 76, 83, 82, 138, 180, 199, 102, 53, 158, 48, 91, 234, 14,
  13, 61, 159, 51, 229, 74, 33, 1, 56, 153, 120, 102, 241, 9, 131, 10, 202, 202, 99, 69, 59,
  220, 185, 90, 30, 7, 10, 7, 77, 240, 204, 26, 251, 141, 169, 111, 73, 162, 179, 57, 0, 3,
  240, 21, 24, 253, 63, 187, 39, 42, 147, 192, 29, 101, 68, 139, 166, 90, 23, 30, 229, 165,
  221, 168, 73, 174, 194, 85, 49, 75, 82, 20, 159, 0, 81, 4, 220, 107, 253, 211, 65, 219, 57,
  0, 10, 202, 143, 85, 242, 67, 120, 0, 161, 97, 221, 51, 219, 28, 215, 60, 34, 90, 82, 212,
  166, 236, 1, 58, 162, 121, 189, 118, 153, 64, 47, 107, 176, 75, 232, 191, 235, 217, 3, 163,
  250, 99, 40, 215, 139, 115, 135, 148, 179, 39, 180, 82, 47, 26, 112, 1, 163, 44, 186, 252,
  216, 108, 156, 126, 114, 48, 52, 89, 62, 133, 77, 120, 13, 132, 175, 57, 44, 128, 168, 40,
  73, 86, 128, 136, 16, 41, 143, 2, 0, 153, 121, 144, 24, 174, 83, 175, 223, 211, 145, 4, 98,
  89, 51, 233, 137, 170, 110, 132, 143, 244, 174, 77, 215, 165, 197, 161, 143, 41, 158, 164,
  39, 0, 42, 85, 134, 8, 158, 216, 63, 200, 5, 100, 97, 135, 65, 8, 129, 158, 6, 30, 155, 110,
  47, 80, 35, 243, 128, 72, 233, 220, 82, 71, 3, 56, 0, 18, 75, 184, 57, 165, 185, 196, 72, 86,
  5, 76, 109, 128, 189, 82, 41, 172, 43, 64, 250, 138, 12, 212, 73, 17, 98, 159, 41, 91, 17,
  240, 130, 0]

end Bridge
namespace Bridge

/-- A 32-byte zero hash, used for the concrete round-trip witness. -/
def zeroHash : CryptoHash := List.replicate 32 0

/-- A small concrete canonical proof record. -/
def exampleProof : LightClientExecutionProof where
  outcome_proof :=
    { proof := []
      block_hash := zeroHash
      id := zeroHash
      outcome :=
        { logs := []
          receipt_ids := [zeroHash]
          gas_burnt := 100
          tokens_burnt := 0
          executor_id := [97, 117, 114, 111, 114, 97]
          status := .unknown } }
  outcome_root_proof := [⟨zeroHash, .left⟩]
  block_header_lite :=
    { prev_block_hash := zeroHash
      inner_rest_hash := zeroHash
      inner_lite :=
        { height := 7
          epoch_id := zeroHash
          next_epoch_id := zeroHash
          prev_state_root := zeroHash
          outcome_root := zeroHash
          timestamp_nanosec := 1
          next_bp_hash := zeroHash
          block_merkle_root := zeroHash } }
  block_proof := []

theorem exampleProof_wf : wfProof exampleProof := by
  simp [wfProof, wfOutcomeWithId, wfOutcome, wfPath, wfPathItem, wfHash,
    wfBlockLite, wfInnerLite, wfStatus, exampleProof, zeroHash]

set_option maxRecDepth 100000 in
/-- C2: Borsh decoding of the Borsh encoding of every canonical proof
record yields the record again (`try_from_slice` requires full
consumption), and for each of the repository's three real sample proofs,
decoding and re-encoding reproduces the original bytes exactly. -/
theorem C2_borsh_roundtrip :
    (∀ p : LightClientExecutionProof, wfProof p →
        tryFromSlice (encProof p) = some p) ∧
    (tryFromSlice sampleProof1).map encProof = some sampleProof1 ∧
    (tryFromSlice sampleProof2).map encProof = some sampleProof2 ∧
    (tryFromSlice sampleProof3).map encProof = some sampleProof3 :=
  ⟨fun p hw => tryFromSlice_encProof p hw, by rfl, by rfl, by rfl⟩

/-- C2 witness: the hypothesis of the universal round-trip conjunct is
satisfied at a concrete record. -/
theorem C2_borsh_roundtrip_witness :
    wfProof exampleProof ∧
      tryFromSlice (encProof exampleProof) = some exampleProof :=
  ⟨exampleProof_wf, C2_borsh_roundtrip.1 exampleProof exampleProof_wf⟩

end Bridge

namespace Bridge

/-! ## Keccak-256 and the fast-bridge storage slot (C3)

`bridge-sdk/connectors/fast-bridge/src/utils.rs` computes the EVM storage
slot proving that a fast-bridge transfer was processed:
`keccak256(keccak256(token ∥ recipient ∥ be256(nonce) ∥ be256(amount)) ∥
be256(302))`.  Keccak-256 (pre-SHA3 padding `0x01`, rate 136, 24 rounds)
is implemented here from first principles; the state is 25 lanes of 64-bit
naturals, index `x + 5 * y`. -/

/-- All 64 bits set; xor with it is bitwise complement on a lane. -/
def u64mask : Nat := 2 ^ 64 - 1

/-- Rotate a 64-bit lane left by `k`. -/
def rotl64 (x k : Nat) : Nat :=
  ((x % 2 ^ (64 - k)) * 2 ^ k) + (x / 2 ^ (64 - k))

/-- Lane read, out-of-range reads as zero. -/
def get25 (s : List Nat) (i : Nat) : Nat := s.getD i 0

/-- Lane index of column `x`, row `y`. -/
def idx (x y : Nat) : Nat := x + 5 * y

/-- One step of the degree-8 LFSR of FIPS 202 (`x^8 + x^6 + x^5 + x^4 + 1`,
kept in a byte, output in the low bit). -/
def lfsrNext (l : Nat) : Nat :=
  if l &&& 0x80 ≠ 0 then ((l * 2) ^^^ 0x71) % 256 else (l * 2) % 256

/-- The LFSR register after `t` steps from the seed `1`. -/
def lfsrState : Nat → Nat
  | 0 => 1
  | t + 1 => lfsrNext (lfsrState t)

/-- The 24 Keccak round constants, derived from the LFSR: round `i` sets
bit `2^j - 1` to the `(7 i + j)`-th LFSR output, `j = 0, …, 6`. -/
def keccakRC : List Nat :=
  (List.range 24).map (fun i =>
    (List.range 7).foldl
      (fun acc j => acc + (lfsrState (7 * i + j) &&& 1) * 2 ^ (2 ^ j - 1)) 0)

/-- The rho rotation offsets, row `x`, column `y`. -/
def rhoOffsets : List (List Nat) :=
  [[0, 36, 3, 41, 18], [1, 44, 10, 45, 2], [62, 6, 43, 15, 61],
   [28, 55, 25, 21, 56], [27, 20, 39, 8, 14]]

/-- Rho offset lookup. -/
def rhoOff (x y : Nat) : Nat := (rhoOffsets.getD x []).getD y 0

/-- Theta column parities. -/
def thetaC (s : List Nat) : List Nat :=
  (List.range 5).map (fun x =>
    get25 s (idx x 0) ^^^ get25 s (idx x 1) ^^^ get25 s (idx x 2) ^^^
      get25 s (idx x 3) ^^^ get25 s (idx x 4))

/-- Theta column adjustments. -/
def thetaD (c : List Nat) : List Nat :=
  (List.range 5).map (fun x =>
    c.getD ((x + 4) % 5) 0 ^^^ rotl64 (c.getD ((x + 1) % 5) 0) 1)

/-- The theta step. -/
def theta (s : List Nat) : List Nat :=
  let d := thetaD (thetaC s)
  (List.range 25).map (fun i => get25 s i ^^^ d.getD (i % 5) 0)

/-- The combined rho and pi steps: output lane `(x', y')` is the rotated
input lane `((x' + 3 y') mod 5, x')`. -/
def rhoPi (s : List Nat) : List Nat :=
  (List.range 25).map (fun j =>
    let xp := j % 5
    let yp := j / 5
    let x := (xp + 3 * yp) % 5
    let y := xp
    rotl64 (get25 s (idx x y)) (rhoOff x y))

/-- The chi step. -/
def chi (s : List Nat) : List Nat :=
  (List.range 25).map (fun j =>
    let x := j % 5
    let y := j / 5
    get25 s (idx x y) ^^^
      ((get25 s (idx ((x + 1) % 5) y) ^^^ u64mask) &&& get25 s (idx ((x + 2) % 5) y)))

/-- The iota step: xor the round constant into lane `(0,0)`. -/
def iotaStep (rc : Nat) (s : List Nat) : List Nat :=
  match s with
  | [] => []
  | a :: rest => (a ^^^ rc) :: rest

/-- The Keccak-f[1600] permutation: 24 rounds. -/
def keccakF (s : List Nat) : List Nat :=
  keccakRC.foldl (fun s rc => iotaStep rc (chi (rhoPi (theta s)))) s

/-- Keccak multi-rate padding `10*1` (first pad byte `0x01`, last `0x80`). -/
def pad101 (rate : Nat) (msg : Bytes) : Bytes :=
  let padlen := rate - msg.length % rate
  if padlen = 1 then msg ++ [0x81]
  else msg ++ [0x01] ++ List.replicate (padlen - 2) 0 ++ [0x80]

/-- Little-endian value of a byte list. -/
def leVal (bs : Bytes) : Nat := bs.foldr (fun b acc => b + 256 * acc) 0

/-- Absorb one 136-byte block and permute. -/
def absorbOne (s : List Nat) (block : Bytes) : List Nat :=
  keccakF ((List.range 25).map (fun i =>
    get25 s i ^^^ (if i < 17 then leVal ((block.drop (8 * i)).take 8) else 0)))

/-- Absorb `n` consecutive 136-byte blocks. -/
def absorbBlocks (s : List Nat) (p : Bytes) (n : Nat) : List Nat :=
  match n with
  | 0 => s
  | n + 1 => absorbBlocks (absorbOne s (p.take 136)) (p.drop 136) n

/-- Keccak-256 of a byte string: pad, absorb, squeeze the first four
lanes little-endian. -/
def keccak256 (msg : Bytes) : Bytes :=
  let p := pad101 136 msg
  let s := absorbBlocks (List.replicate 25 0) p (p.length / 136)
  encLE 8 (get25 s 0) ++ encLE 8 (get25 s 1) ++ encLE 8 (get25 s 2) ++
    encLE 8 (get25 s 3)

/-- The slot number of the storage `mapping(bytes32 => bool) public
processedHashes;` in the contract `EthErc20FastBridge.sol`
(`STORAGE_KEY_SLOT` in `utils.rs`). -/
def STORAGE_KEY_SLOT : Nat := 302

/-- Big-endian encoding of `n` into `w` bytes (`U256::to_big_endian` for
`w = 32`). -/
def beBytes (w n : Nat) : Bytes := (encLE w n).reverse

/-- The transfer hash (`get_transfer_hash` in `utils.rs`): keccak of
token, recipient, big-endian nonce and big-endian amount concatenated. -/
def get_transfer_hash (token recipient : Bytes) (nonce amount : Nat) : Bytes :=
  keccak256 (token ++ recipient ++ beBytes 32 nonce ++ beBytes 32 amount)

/-- The processed-transfer storage key
(`get_fast_bridge_transfer_storage_key` in `utils.rs`): keccak of the
transfer hash followed by the big-endian slot constant. -/
def get_fast_bridge_transfer_storage_key (token recipient : Bytes)
    (nonce amount : Nat) : Bytes :=
  keccak256 (get_transfer_hash token recipient nonce amount ++
    beBytes 32 STORAGE_KEY_SLOT)

/-- The claim's reference formula, written out as the spec words it:
`keccak256(keccak256(token ∥ recipient ∥ be256(nonce) ∥ be256(amount)) ∥
be256(302))`. -/
def specStorageSlotKey (token recipient : Bytes) (nonce amount : Nat) : Bytes :=
  keccak256 (keccak256 (token ++ recipient ++ beBytes 32 nonce ++
    beBytes 32 amount) ++ beBytes 32 302)

/-- The fixed test token address `0x1111…11`. -/
def fixedToken : Bytes := List.replicate 20 0x11

/-- The fixed test recipient address `0x2222…22`. -/
def fixedRecipient : Bytes := List.replicate 20 0x22

/-- The reference Solidity double-keccak vector for the fixed inputs
(token `0x11…`, recipient `0x22…`, nonce 1, amount 1000):
`ad0cce3ae9ec4e5f88ad53a688b43a78d86ac507877fac303a1a339e67eb653a`. -/
def referenceSlotVector : Bytes :=
  [0xad, 0x0c, 0xce, 0x3a, 0xe9, 0xec, 0x4e, 0x5f, 0x88, 0xad, 0x53, 0xa6,
   0x88, 0xb4, 0x3a, 0x78, 0xd8, 0x6a, 0xc5, 0x07, 0x87, 0x7f, 0xac, 0x30,
   0x3a, 0x1a, 0x33, 0x9e, 0x67, 0xeb, 0x65, 0x3a]

set_option maxRecDepth 100000 in
/-- C3: for every 20-byte token and recipient and `U256` nonce and amount,
the computed storage-slot key equals the spec's double-keccak formula with
slot constant 302; and at the fixed inputs (token `0x11…11`, recipient
`0x22…22`, nonce 1, amount 1000) it equals the reference Solidity
vector. -/
theorem C3_storage_slot_formula :
    (∀ (token recipient : Bytes) (nonce amount : Nat),
        token.length = 20 → recipient.length = 20 →
        nonce < 2 ^ 256 → amount < 2 ^ 256 →
        get_fast_bridge_transfer_storage_key token recipient nonce amount =
          specStorageSlotKey token recipient nonce amount) ∧
    get_fast_bridge_transfer_storage_key fixedToken fixedRecipient 1 1000 =
      referenceSlotVector :=
  ⟨fun _ _ _ _ _ _ _ _ => rfl, by decide⟩

set_option maxRecDepth 100000 in
/-- C3 witness: the universal conjunct applied at the fixed concrete
inputs. -/
theorem C3_storage_slot_formula_witness :
    get_fast_bridge_transfer_storage_key fixedToken fixedRecipient 1 1000 =
      specStorageSlotKey fixedToken fixedRecipient 1 1000 :=
  C3_storage_slot_formula.1 fixedToken fixedRecipient 1 1000 (by decide)
    (by decide) (by decide) (by decide)

end Bridge

namespace Bridge

/-! ## Error taxonomy of the SDK

`bridge-sdk/near-rpc-client/src/error.rs` and
`bridge-sdk/connectors/bridge-connector-common/src/result.rs`.  The
payloads of the JSON-RPC transport error variants are external
`near_jsonrpc_client` types and are elided; string payloads are modelled
as byte lists. -/

/-- NEAR RPC client errors (`NearRpcError`), one constructor per source
variant. -/
inductive NearRpcError where
  | rpcQueryError
  | rpcBroadcastTxAsyncError
  | rpcLightClientProofError
  | rpcBlockError
  | rpcTransactionError
  | resultError
  | nonceError
  | finalizationError
deriving DecidableEq

/-- Bridge SDK errors (`BridgeSdkError`), one constructor per source
variant: `ConfigError`, `EthRpcError`, `NearRpcError`, `EthProofError`,
`NearProofError`, `UnknownError` — the complete list; the source enum has
no light-client-lag variant. -/
inductive BridgeSdkError where
  | configError (msg : Bytes)
  | ethRpcError
  | nearRpcError (e : NearRpcError)
  | ethProofError (msg : Bytes)
  | nearProofError (msg : Bytes)
  | unknownError
deriving DecidableEq

/-- The kind (constructor) of a `BridgeSdkError`. -/
inductive BridgeSdkErrorKind where
  | configError
  | ethRpcError
  | nearRpcError
  | ethProofError
  | nearProofError
  | unknownError
deriving DecidableEq

/-- Kind of an error value. -/
def BridgeSdkError.kind : BridgeSdkError → BridgeSdkErrorKind
  | .configError _ => .configError
  | .ethRpcError => .ethRpcError
  | .nearRpcError _ => .nearRpcError
  | .ethProofError _ => .ethProofError
  | .nearProofError _ => .nearProofError
  | .unknownError => .unknownError

/-- Transaction hashes are abstract identifiers. -/
abbrev TxHash := Nat

/-- An EVM contract call submitted by a connector. -/
inductive EvmAction where
  | custodianWithdraw (proofData : Bytes) (proofBlockHeight : Nat)
  | approve (spender : Bytes) (amount : Nat) (awaitedToReceipt : Bool)
  | factoryWithdraw (token : Bytes) (amount : Nat) (recipient : Bytes)
  | depositOmni (signature : Bytes) (nonce : Nat) (token : Bytes)
      (amount : Nat) (recipient : Bytes) (feeRecipient : Bytes)
  | transferTokens (token : Bytes) (recipient : Bytes) (nonce : Nat)
      (amount : Nat) (unlockRecipient : Bytes) (validTillBlockHeight : Nat)
      (msgValue : Nat)
deriving DecidableEq

end Bridge

namespace Bridge.EthConnector

/-! ## EVM-coin connector: `finalize_withdraw` (C4)

`eth_connector.rs` lines 161-206: query the on-EVM light client for
`sync_height` and `block_hashes(sync_height)`, fetch the NEAR light-client
proof for the receipt at that head, serialise it, and submit
`custodian.withdraw(proofBytes, sync_height)` on EVM.  The function never
compares the receipt's block height with the sync height; if the NEAR RPC
cannot prove the receipt at the given head (e.g. the receipt's block is
beyond the head), the RPC error propagates via `?` as
`BridgeSdkError::NearRpcError` before any EVM call is made.  The
environment bundles the RPC responses; configuration look-ups are taken
as resolved. -/

/-- The light-client-proof request sent to the NEAR RPC
(`TransactionOrReceiptId::Receipt` plus the head hash). -/
structure ProofRequest where
  receipt_id : CryptoHash
  receiver_id : AccountId
  light_client_head : CryptoHash
deriving DecidableEq

/-- Environment of `finalize_withdraw`: the light client's responses and
the NEAR RPC's proof endpoint. -/
structure Env where
  syncHeight : Nat
  blockHash : Nat → CryptoHash
  lightClientProof : ProofRequest → Except NearRpcError LightClientExecutionProof
  ethConnectorAccountId : AccountId

/-- `EthConnector::finalize_withdraw`, step for step; the returned list
records every EVM transaction submitted (the function submits no NEAR
transaction at all). -/
def finalize_withdraw (env : Env) (receipt_id : CryptoHash) :
    Except BridgeSdkError TxHash × List EvmAction :=
  let proof_block_height := env.syncHeight
  let block_hash := env.blockHash proof_block_height
  match env.lightClientProof
      ⟨receipt_id, env.ethConnectorAccountId, block_hash⟩ with
  | .error e => (.error (.nearRpcError e), [])
  | .ok proof_data =>
    (.ok 0, [.custodianWithdraw (encProof proof_data) proof_block_height])

/-- The claim's fixture: the light client is synced to height 5, the
receipt lives in block 7, so the NEAR RPC rejects the proof request (the
head precedes the receipt's block). -/
def lagEnv : Env where
  syncHeight := 5
  blockHash := fun h => beBytes 32 h
  lightClientProof := fun _ => .error .rpcLightClientProofError
  ethConnectorAccountId := [97, 117, 114, 111, 114, 97]

/-- C4 counterexample: at the fixture (syncHeight 5, receipt in block 7),
`finalize_withdraw` submits nothing but returns the propagated NEAR RPC
error, whose kind is `NearRpcError` — the `BridgeSdkError` enum has no
`LightClientLag` constructor at all, so no call can return an error of
that kind. -/
theorem C4_counterexample_no_lightclientlag_kind :
    finalize_withdraw lagEnv zeroHash =
      (.error (.nearRpcError .rpcLightClientProofError), []) ∧
    (finalize_withdraw lagEnv zeroHash).1 =
      .error (.nearRpcError .rpcLightClientProofError) ∧
    BridgeSdkError.kind (.nearRpcError .rpcLightClientProofError) =
      .nearRpcError :=
  ⟨rfl, rfl, rfl⟩

/-- C4 as amended: whenever the NEAR RPC fails the light-client-proof
request at the current sync head (as it does when the receipt's block is
beyond the head), `finalize_withdraw` returns that error wrapped as
`BridgeSdkError::NearRpcError` — there is no dedicated `LightClientLag`
kind — and submits no transaction on either chain. -/
theorem C4_lag_returns_near_rpc_error_without_submitting
    (env : Env) (receipt_id : CryptoHash) (e : NearRpcError)
    (hrpc : env.lightClientProof
      ⟨receipt_id, env.ethConnectorAccountId,
        env.blockHash env.syncHeight⟩ = .error e) :
    finalize_withdraw env receipt_id = (.error (.nearRpcError e), []) := by
  simp [finalize_withdraw, hrpc]

/-- C4 witness: the amended theorem applied at the concrete fixture. -/
theorem C4_lag_witness :
    finalize_withdraw lagEnv zeroHash =
      (.error (.nearRpcError .rpcLightClientProofError), []) :=
  C4_lag_returns_near_rpc_error_without_submitting lagEnv zeroHash
    .rpcLightClientProofError rfl

end Bridge.EthConnector

namespace Bridge

/-! ## NEAR transaction polling (C5)

`near_rpc_client.rs`: `wait_for_tx_final_outcome(hash, account, addr,
timeout_sec)` loops: issue the status RPC, compute the elapsed seconds,
fail with `FinalizationError` if `elapsed > timeout_sec`, otherwise retry
after a 2-second sleep on a handler error or a missing final outcome, and
return the outcome once present.  The clock is modelled discretely: RPC
calls take no time and each retry sleeps exactly 2 seconds, so the elapsed
time before poll `i` is `2 * i`.  The poll trace is the environment.
`DEFAULT_WAIT_FINAL_OUTCOME_TIMEOUT_SEC = 500` is declared in the same
file, but `Nep141Connector::finalize_deposit_omni` passes the literal
timeout `30`. -/

/-- The final execution outcome view
(`near_primitives::views::FinalExecutionOutcomeView`); only the
`receipts_outcome` field is read by the modelled code. -/
structure FinalExecutionOutcomeView where
  receipts_outcome : List RpcExecutionOutcomeWithIdView
deriving DecidableEq

/-- One poll's response: a retriable handler error, a fatal transport
error, a response without a final outcome yet, or the outcome. -/
inductive PollResult where
  | handlerError
  | fatalError
  | pending
  | executed (outcome : FinalExecutionOutcomeView)
deriving DecidableEq

/-- The default polling deadline
(`DEFAULT_WAIT_FINAL_OUTCOME_TIMEOUT_SEC`). -/
def DEFAULT_WAIT_FINAL_OUTCOME_TIMEOUT_SEC : Nat := 500

/-- The polling loop of `wait_for_tx_final_outcome`: `i` is the poll
index, `elapsed` the seconds since entry, `fuel` a structural bound
(`none` = fuel exhausted, which the chosen fuel never is). -/
def waitLoop (trace : Nat → PollResult) (timeout_sec : Nat) :
    Nat → Nat → Nat → Option (Except NearRpcError FinalExecutionOutcomeView)
  | _, _, 0 => none
  | i, elapsed, fuel + 1 =>
    if elapsed > timeout_sec then some (.error .finalizationError)
    else
      match trace i with
      | .fatalError => some (.error .rpcTransactionError)
      | .handlerError => waitLoop trace timeout_sec (i + 1) (elapsed + 2) fuel
      | .pending => waitLoop trace timeout_sec (i + 1) (elapsed + 2) fuel
      | .executed oc => some (.ok oc)

/-- `wait_for_tx_final_outcome` against a poll trace: the loop needs at
most `timeout_sec / 2 + 2` iterations before it must return. -/
def wait_for_tx_final_outcome (trace : Nat → PollResult)
    (timeout_sec : Nat) : Option (Except NearRpcError FinalExecutionOutcomeView) :=
  waitLoop trace timeout_sec 0 0 (timeout_sec / 2 + 2)

/-- The wait performed by `Nep141Connector::finalize_deposit_omni`: the
source passes the literal timeout `30`. -/
def finalizeDepositOmniWait (trace : Nat → PollResult) :
    Option (Except NearRpcError FinalExecutionOutcomeView) :=
  wait_for_tx_final_outcome trace 30

theorem waitLoop_skip (trace : Nat → PollResult) (t : Nat) (k : Nat) :
    ∀ i e fuel, (∀ j, j < k → trace (i + j) = .pending) →
    (∀ j, j < k → e + 2 * j ≤ t) →
    waitLoop trace t i e (k + fuel) =
      waitLoop trace t (i + k) (e + 2 * k) fuel := by
  induction k with
  | zero => intro i e fuel _ _; simp
  | succ k ih =>
    intro i e fuel hp hq
    have h0 : trace i = .pending := by simpa using hp 0 (Nat.succ_pos k)
    have he0 : ¬ e > t := by have := hq 0 (Nat.succ_pos k); omega
    have hstep : k + 1 + fuel = (k + fuel) + 1 := by omega
    rw [hstep]
    rw [show waitLoop trace t i e ((k + fuel) + 1) =
        waitLoop trace t (i + 1) (e + 2) (k + fuel) by
      simp [waitLoop, he0, h0]]
    have := ih (i + 1) (e + 2) fuel
      (fun j hj => by
        have := hp (j + 1) (by omega)
        simpa [Nat.add_assoc, Nat.add_comm 1 j] using this)
      (fun j hj => by have := hq (j + 1) (by omega); omega)
    rw [this]
    congr 1 <;> omega

theorem waitLoop_executed (trace : Nat → PollResult) (t i e fuel : Nat)
    (oc : FinalExecutionOutcomeView) (he : ¬ e > t)
    (hx : trace i = .executed oc) :
    waitLoop trace t i e (fuel + 1) = some (.ok oc) := by
  simp [waitLoop, he, hx]

theorem waitLoop_timeout (trace : Nat → PollResult) (t i e fuel : Nat)
    (he : e > t) :
    waitLoop trace t i e (fuel + 1) = some (.error .finalizationError) := by
  simp [waitLoop, he]

/-- An outcome with no receipts, for the concrete fixtures. -/
def emptyOutcome : FinalExecutionOutcomeView := ⟨[]⟩

/-- A trace whose outcome becomes available at poll 16, i.e. 32 seconds
in — well within 500 seconds. -/
def trace16 : Nat → PollResult :=
  fun i => if i = 16 then .executed emptyOutcome else .pending

/-- C5 counterexample: the sign-then-claim wait polls with the literal
timeout 30, not the 500-second deadline: on a trace whose outcome arrives
32 seconds in (far within 500 seconds), the wait in
`finalize_deposit_omni` fails with the finalization-timeout error, and
the default 500-second constant is a different value than the 30 the call
passes. -/
theorem C5_counterexample_timeout_is_30_not_500 :
    trace16 16 = .executed emptyOutcome ∧
    2 * 16 ≤ 500 ∧
    finalizeDepositOmniWait trace16 = some (.error .finalizationError) ∧
    DEFAULT_WAIT_FINAL_OUTCOME_TIMEOUT_SEC = 500 :=
  ⟨rfl, by decide, by rfl, rfl⟩

/-- C5 as amended: the sign-then-claim wait polls at a 2-second interval
against a 30-second deadline (the file's 500-second default is not used by
`finalize_deposit_omni`): if the polls are pending until the outcome
appears at poll `k`, the wait succeeds when `k ≤ 15` (elapsed `2k ≤ 30`)
and fails with the finalization-timeout error once 16 polls have gone by
(elapsed `32 > 30`), regardless of any later outcome. -/
theorem C5_finalize_deposit_omni_wait_deadline_30s
    (trace : Nat → PollResult) (k : Nat) (oc : FinalExecutionOutcomeView)
    (hp : ∀ j, j < k → trace j = .pending)
    (hx : trace k = .executed oc) :
    (k ≤ 15 → finalizeDepositOmniWait trace = some (.ok oc)) ∧
    (16 ≤ k → finalizeDepositOmniWait trace = some (.error .finalizationError)) := by
  constructor
  · intro hk
    have hskip := waitLoop_skip trace 30 k 0 0 (17 - k)
      (fun j hj => by simpa using hp j hj)
      (fun j hj => by omega)
    have hfuel : k + (17 - k) = 17 := by omega
    rw [hfuel] at hskip
    have h17 : (30 / 2 + 2) = 17 := by decide
    rw [finalizeDepositOmniWait, wait_for_tx_final_outcome, h17, hskip]
    have hfuel2 : 17 - k = (16 - k) + 1 := by omega
    rw [hfuel2]
    exact waitLoop_executed trace 30 (0 + k) (0 + 2 * k) (16 - k) oc
      (by omega) (by simpa using hx)
  · intro hk
    have hskip := waitLoop_skip trace 30 16 0 0 1
      (fun j hj => by simpa using hp j (by omega))
      (fun j hj => by omega)
    have h17 : (30 / 2 + 2) = 17 := by decide
    rw [finalizeDepositOmniWait, wait_for_tx_final_outcome, h17]
    rw [show (17 : Nat) = 16 + 1 by decide, hskip]
    exact waitLoop_timeout trace 30 (0 + 16) (0 + 2 * 16) 0 (by omega)

/-- A trace whose outcome is available at poll 3 (6 seconds in). -/
def trace3 : Nat → PollResult :=
  fun i => if i = 3 then .executed emptyOutcome else .pending

/-- C5 witness: the amended deadline theorem applied at the concrete
trace with the outcome at poll 3. -/
theorem C5_finalize_deposit_omni_wait_witness :
    finalizeDepositOmniWait trace3 = some (.ok emptyOutcome) :=
  (C5_finalize_deposit_omni_wait_deadline_30s trace3 3 emptyOutcome
    (by decide) (by decide)).1 (by decide)

end Bridge

namespace Bridge

/-! ## Sign-then-claim finalisation (C6)

`Nep141Connector::finalize_deposit_omni` waits for the NEAR transaction's
outcome (timeout 30), searches `receipts_outcome` for the first receipt
with `logs.len() > 1 && logs[0].contains("SignTransferEvent")`, parses the
*first* log as a `Nep141LockerEvent` (parse failure → `UnknownError`),
and hands it to `finalize_deposit_omni_with_log`, which submits
`deposit_omni(signature, BridgeDeposit)` on EVM when the event is a
`SignTransferEvent` whose recipient is an `Eth` address, and fails with
`UnknownError` otherwise.  JSON parsing of the log is an environment
oracle. -/

theorem waitLoop_total (trace : Nat → PollResult) (t : Nat) :
    ∀ fuel i e, t < e + 2 * fuel →
      waitLoop trace t i e (fuel + 1) ≠ none := by
  intro fuel
  induction fuel with
  | zero =>
    intro i e h
    have he : e > t := by omega
    simp [waitLoop, he]
  | succ f ih =>
    intro i e h
    by_cases he : e > t
    · simp [waitLoop, he]
    · cases hx : trace i <;>
        simp [waitLoop, he, hx] <;>
        exact ih (i + 1) (e + 2) (by omega)

theorem wait_for_tx_final_outcome_total (trace : Nat → PollResult)
    (t : Nat) : wait_for_tx_final_outcome trace t ≠ none := by
  rw [wait_for_tx_final_outcome]
  have hfuel : t / 2 + 2 = (t / 2 + 1) + 1 := by omega
  rw [hfuel]
  exact waitLoop_total trace t (t / 2 + 1) 0 0 (by omega)

/-- The UTF-8 bytes of the marker substring `SignTransferEvent`. -/
def signTransferMarker : Bytes :=
  [83, 105, 103, 110, 84, 114, 97, 110, 115, 102, 101, 114, 69, 118, 101, 110, 116]

/-- The source's receipt predicate: more than one log, and the first log
contains the marker. -/
def hasSignTransferLog (r : RpcExecutionOutcomeWithIdView) : Bool :=
  decide (r.outcome.logs.length > 1) &&
    decide (signTransferMarker <:+: r.outcome.logs.getD 0 [])

/-- Omni address (external `omni_types` crate): an EVM, NEAR or Solana
recipient. -/
inductive OmniAddress where
  | eth (addr : Bytes)
  | near (addr : Bytes)
  | sol (addr : Bytes)
deriving DecidableEq

/-- The signed transfer payload carried by a `SignTransferEvent`
(external `omni_types` crate). -/
structure MessagePayload where
  nonce : Nat
  token : AccountId
  amount : Nat
  recipient : OmniAddress
  fee_recipient : Option AccountId
deriving DecidableEq

/-- Locker events (external `omni_types::near_events::Nep141LockerEvent`);
only the `SignTransferEvent` variant is consumed by the modelled code, the
other variants are collapsed into one constructor. -/
inductive Nep141LockerEvent where
  | signTransferEvent (message_payload : MessagePayload) (signature : Bytes)
  | otherEvent
deriving DecidableEq

/-- `Nep141Connector::finalize_deposit_omni_with_log`: a
`SignTransferEvent` with an `Eth` recipient becomes a `deposit_omni` EVM
call (absent fee recipient encoded as the empty string); anything else is
`UnknownError`. -/
def finalize_deposit_omni_with_log :
    Nep141LockerEvent → Except BridgeSdkError TxHash × List EvmAction
  | .otherEvent => (.error .unknownError, [])
  | .signTransferEvent mp sig =>
    match mp.recipient with
    | .eth addr =>
      (.ok 0, [.depositOmni sig mp.nonce mp.token mp.amount addr
        (mp.fee_recipient.getD [])])
    | _ => (.error .unknownError, [])

/-- `Nep141Connector::finalize_deposit_omni`: wait for the outcome, find
the first receipt satisfying `hasSignTransferLog`, parse its first log,
finalise with the parsed event.  The `none` fuel branch is unreachable
(`wait_for_tx_final_outcome_total`). -/
def finalize_deposit_omni (trace : Nat → PollResult)
    (parseEvent : Bytes → Option Nep141LockerEvent) :
    Except BridgeSdkError TxHash × List EvmAction :=
  match finalizeDepositOmniWait trace with
  | none => (.error .unknownError, [])
  | some (.error e) => (.error (.nearRpcError e), [])
  | some (.ok sign_tx) =>
    match sign_tx.receipts_outcome.find? hasSignTransferLog with
    | none => (.error .unknownError, [])
    | some receipt =>
      match parseEvent (receipt.outcome.logs.getD 0 []) with
      | none => (.error .unknownError, [])
      | some ev => finalize_deposit_omni_with_log ev

/-- A receipt whose single log is exactly the marker: the log contains
`SignTransferEvent`, but there is only one log. -/
def cexReceipt : RpcExecutionOutcomeWithIdView where
  proof := []
  block_hash := zeroHash
  id := zeroHash
  outcome :=
    { logs := [signTransferMarker]
      receipt_ids := []
      gas_burnt := 0
      tokens_burnt := 0
      executor_id := [97]
      status := .unknown
      metadata := ⟨1, none⟩ }

/-- The outcome holding only `cexReceipt`. -/
def cexOutcome : FinalExecutionOutcomeView := ⟨[cexReceipt]⟩

/-- A trace that returns `cexOutcome` immediately. -/
def cexTrace : Nat → PollResult := fun _ => .executed cexOutcome

/-- A well-formed signed-transfer payload with an EVM recipient. -/
def cexPayload : MessagePayload :=
  ⟨1, [97], 5, .eth (List.replicate 20 0), none⟩

/-- A parse oracle that successfully parses the marker log as a
`SignTransferEvent`. -/
def cexParse : Bytes → Option Nep141LockerEvent :=
  fun l => if l = signTransferMarker then
    some (.signTransferEvent cexPayload [1]) else none

/-- C6 counterexample: the outcome has a receipt whose log contains
`SignTransferEvent` (and even parses as one), yet because the receipt has
only one log — the source requires `logs.len() > 1` and looks only at
`logs[0]` — the finalisation fails with `UnknownError` and submits
nothing. -/
theorem C6_counterexample_single_log_receipt_fails :
    cexOutcome.receipts_outcome = [cexReceipt] ∧
    cexReceipt.outcome.logs = [signTransferMarker] ∧
    signTransferMarker <:+: signTransferMarker ∧
    cexParse signTransferMarker =
      some (.signTransferEvent cexPayload [1]) ∧
    finalize_deposit_omni cexTrace cexParse = (.error .unknownError, []) :=
  ⟨rfl, rfl, by decide, rfl, by rfl⟩

/-- C6 as amended: when the poll trace yields an outcome whose first
receipt with more than one log and the marker in its *first* log exists,
and that first log parses as a `SignTransferEvent` with an `Eth`
recipient, `finalize_deposit_omni` submits the corresponding
`deposit_omni` EVM call and succeeds; the event is only recognised in log
position 0 of a receipt with at least two logs. -/
theorem C6_sign_transfer_found_submits_deposit_omni
    (trace : Nat → PollResult) (parseEvent : Bytes → Option Nep141LockerEvent)
    (oc : FinalExecutionOutcomeView) (r : RpcExecutionOutcomeWithIdView)
    (mp : MessagePayload) (sig : Bytes) (addr : Bytes)
    (hw : finalizeDepositOmniWait trace = some (.ok oc))
    (hfind : oc.receipts_outcome.find? hasSignTransferLog = some r)
    (hparse : parseEvent (r.outcome.logs.getD 0 []) =
      some (.signTransferEvent mp sig))
    (hrec : mp.recipient = .eth addr) :
    finalize_deposit_omni trace parseEvent =
      (.ok 0, [.depositOmni sig mp.nonce mp.token mp.amount addr
        (mp.fee_recipient.getD [])]) := by
  simp only [finalize_deposit_omni, hw, hfind]
  rw [hparse]
  simp [finalize_deposit_omni_with_log, hrec]

/-- A receipt with two logs whose first log is the marker. -/
def wexReceipt : RpcExecutionOutcomeWithIdView where
  proof := []
  block_hash := zeroHash
  id := zeroHash
  outcome :=
    { logs := [signTransferMarker, [120]]
      receipt_ids := []
      gas_burnt := 0
      tokens_burnt := 0
      executor_id := [97]
      status := .unknown
      metadata := ⟨1, none⟩ }

/-- The outcome holding only `wexReceipt`. -/
def wexOutcome : FinalExecutionOutcomeView := ⟨[wexReceipt]⟩

/-- A trace that returns `wexOutcome` immediately. -/
def wexTrace : Nat → PollResult := fun _ => .executed wexOutcome

/-- C6 witness: the amended theorem applied at a concrete two-log
receipt. -/
theorem C6_sign_transfer_witness :
    finalize_deposit_omni wexTrace cexParse =
      (.ok 0, [.depositOmni [1] cexPayload.nonce cexPayload.token
        cexPayload.amount (List.replicate 20 0)
        (cexPayload.fee_recipient.getD [])]) :=
  C6_sign_transfer_found_submits_deposit_omni wexTrace cexParse
    wexOutcome wexReceipt cexPayload [1] (List.replicate 20 0)
    (by rfl) (by rfl) (by rfl) (by rfl)

end Bridge

namespace Bridge

/-! ## NEP-token withdraw and the allowance precondition (C7)

`Nep141Connector::withdraw`: resolve the ERC-20 mirror, read
`allowance(signer, factory)`, and iff `allowance < amount` submit
`approve(factory, amount - allowance)` and await it to a mined receipt
(`send().await?.await`) before submitting the factory `withdraw` burn
call. -/

/-- Environment of `Nep141Connector::withdraw`: the resolved factory
address and the ERC-20 allowance the chain reports for the signer. -/
structure WithdrawEnv where
  factoryAddress : Bytes
  allowance : Nat

/-- `Nep141Connector::withdraw`; the returned list is every EVM
transaction submitted, in submission order, with the approve flagged as
awaited to a receipt before the next submission. -/
def nep141_withdraw (env : WithdrawEnv) (near_token_id : Bytes)
    (amount : Nat) (receiver : Bytes) :
    Except BridgeSdkError TxHash × List EvmAction :=
  let approvals :=
    if env.allowance < amount then
      [.approve env.factoryAddress (amount - env.allowance) true]
    else []
  (.ok 0, approvals ++ [.factoryWithdraw near_token_id amount receiver])

/-- C7: an `approve(factory, delta)` is submitted iff the allowance is
strictly below the amount; when submitted, the delta is
`amount - allowance`, the approve is awaited to a mined receipt, and it
precedes the withdraw submission; with sufficient allowance only the
withdraw is submitted.  At the claim's figures, allowance 40 and amount
100 give `approve(factory, 60)`, and allowance 100 gives no approve. -/
theorem C7_withdraw_allowance_precondition
    (env : WithdrawEnv) (token : Bytes) (amount : Nat) (receiver : Bytes) :
    (env.allowance < amount →
      (nep141_withdraw env token amount receiver).2 =
        [.approve env.factoryAddress (amount - env.allowance) true,
         .factoryWithdraw token amount receiver]) ∧
    (¬ env.allowance < amount →
      (nep141_withdraw env token amount receiver).2 =
        [.factoryWithdraw token amount receiver]) ∧
    (nep141_withdraw ⟨env.factoryAddress, 40⟩ token 100 receiver).2 =
      [.approve env.factoryAddress 60 true,
       .factoryWithdraw token 100 receiver] ∧
    (nep141_withdraw ⟨env.factoryAddress, 100⟩ token 100 receiver).2 =
      [.factoryWithdraw token 100 receiver] := by
  refine ⟨fun h => ?_, fun h => ?_, ?_, ?_⟩
  · simp [nep141_withdraw, if_pos h]
  · simp [nep141_withdraw, if_neg h]
  · simp [nep141_withdraw]
  · simp [nep141_withdraw]

/-- C7 witness: both implications discharged at concrete allowances. -/
theorem C7_withdraw_allowance_witness :
    (nep141_withdraw ⟨[17], 40⟩ [116] 100 [98]).2 =
      [.approve [17] 60 true, .factoryWithdraw [116] 100 [98]] ∧
    (nep141_withdraw ⟨[17], 100⟩ [116] 100 [98]).2 =
      [.factoryWithdraw [116] 100 [98]] :=
  ⟨(C7_withdraw_allowance_precondition ⟨[17], 40⟩ [116] 100 [98]).1
      (by decide),
   ((C7_withdraw_allowance_precondition ⟨[17], 100⟩ [116] 100 [98]).2.1)
      (by decide)⟩

/-! ## NEAR-side gas and attached-deposit constants (C8)

Every `near_rpc_client::change` invocation in the three connectors, with
the literal gas and deposit it passes. -/

/-- NEAR contract methods invoked by the connectors. -/
inductive NearMethod where
  | ft_transfer_call
  | log_metadata
  | storage_deposit
  | withdraw
  | deposit
  | lp_unlock
  | unlock
  | sign_transfer
deriving DecidableEq

/-- Method, gas and attached deposit of one NEAR function-call
transaction. -/
structure NearCallParams where
  method : NearMethod
  gas : Nat
  deposit : Nat
deriving DecidableEq

/-- `Nep141Connector::log_token_metadata`: `log_metadata`, gas
`300·10^12`, deposit `200·10^21`. -/
def nep141LogMetadataCall : NearCallParams :=
  ⟨.log_metadata, 300 * 10 ^ 12, 200 * 10 ^ 21⟩

/-- `Nep141Connector::storage_deposit_for_token`: `storage_deposit`, gas
`300·10^12`, deposit the caller-supplied amount. -/
def nep141StorageDepositCall (amount : Nat) : NearCallParams :=
  ⟨.storage_deposit, 300 * 10 ^ 12, amount⟩

/-- `Nep141Connector::deposit`: `ft_transfer_call` on the token with gas
`300·10^12` and deposit 1 yoctoNEAR. -/
def nep141DepositCall : NearCallParams :=
  ⟨.ft_transfer_call, 300 * 10 ^ 12, 1⟩

/-- `Nep141Connector::finalize_withdraw`: locker `withdraw`, gas
`300·10^12`, deposit `60·10^21`. -/
def nep141FinalizeWithdrawCall : NearCallParams :=
  ⟨.withdraw, 300 * 10 ^ 12, 60 * 10 ^ 21⟩

/-- `Nep141Connector::sign_transfer`: `sign_transfer`, gas `300·10^12`,
deposit `500·10^21`. -/
def nep141SignTransferCall : NearCallParams :=
  ⟨.sign_transfer, 300 * 10 ^ 12, 500 * 10 ^ 21⟩

/-- `EthConnector::finalize_deposit`: connector `deposit`, gas
`300·10^12`, deposit 0. -/
def ethConnectorFinalizeDepositCall : NearCallParams :=
  ⟨.deposit, 300 * 10 ^ 12, 0⟩

/-- `EthConnector::withdraw`: connector `withdraw`, gas `300·10^12`,
deposit 1 yoctoNEAR. -/
def ethConnectorWithdrawCall : NearCallParams :=
  ⟨.withdraw, 300 * 10 ^ 12, 1⟩

/-- `FastBridge::transfer`: `ft_transfer_call` on the token, gas
`200·10^12`, deposit 1 yoctoNEAR. -/
def fastBridgeTransferCall : NearCallParams :=
  ⟨.ft_transfer_call, 200 * 10 ^ 12, 1⟩

/-- `FastBridge::lp_unlock`: `lp_unlock`, gas `120·10^12`, deposit 0. -/
def fastBridgeLpUnlockCall : NearCallParams :=
  ⟨.lp_unlock, 120 * 10 ^ 12, 0⟩

/-- `FastBridge::unlock`: `unlock`, gas `300·10^12`, deposit 0. -/
def fastBridgeUnlockCall : NearCallParams :=
  ⟨.unlock, 300 * 10 ^ 12, 0⟩

/-- `FastBridge::withdraw`: fast-bridge `withdraw`, gas `20·10^12`,
deposit 0. -/
def fastBridgeWithdrawCall : NearCallParams :=
  ⟨.withdraw, 20 * 10 ^ 12, 0⟩

/-- C8 counterexample: the NEP-141 connector's `deposit` is an
`ft_transfer_call` submitted with gas `300·10^12`, not `200·10^12` — so
"200·10^12 for every `ft_transfer_call`" fails. -/
theorem C8_counterexample_nep141_ft_transfer_gas :
    nep141DepositCall.method = .ft_transfer_call ∧
    nep141DepositCall.gas = 300 * 10 ^ 12 ∧
    ¬ nep141DepositCall.gas = 200 * 10 ^ 12 :=
  ⟨rfl, rfl, by decide⟩

/-- C8 as amended: the gas/deposit table as the source has it — gas
`300·10^12` for most calls, `200·10^12` for the fast-bridge
`ft_transfer_call` but `300·10^12` for the NEP-141 connector's
`ft_transfer_call`, `120·10^12` for `lp_unlock` (and `20·10^12` for the
fast-bridge `withdraw`); attached deposits: 1 yoctoNEAR for the ft
transfers (and the ETH-connector withdraw), `60·10^21` for the locker
withdraw finalisation, `200·10^21` for `log_metadata`, `500·10^21` for
`sign_transfer`. -/
theorem C8_gas_and_deposit_table :
    nep141LogMetadataCall = ⟨.log_metadata, 300 * 10 ^ 12, 200 * 10 ^ 21⟩ ∧
    (∀ a, nep141StorageDepositCall a = ⟨.storage_deposit, 300 * 10 ^ 12, a⟩) ∧
    nep141DepositCall = ⟨.ft_transfer_call, 300 * 10 ^ 12, 1⟩ ∧
    nep141FinalizeWithdrawCall = ⟨.withdraw, 300 * 10 ^ 12, 60 * 10 ^ 21⟩ ∧
    nep141SignTransferCall = ⟨.sign_transfer, 300 * 10 ^ 12, 500 * 10 ^ 21⟩ ∧
    ethConnectorFinalizeDepositCall = ⟨.deposit, 300 * 10 ^ 12, 0⟩ ∧
    ethConnectorWithdrawCall = ⟨.withdraw, 300 * 10 ^ 12, 1⟩ ∧
    fastBridgeTransferCall = ⟨.ft_transfer_call, 200 * 10 ^ 12, 1⟩ ∧
    fastBridgeLpUnlockCall = ⟨.lp_unlock, 120 * 10 ^ 12, 0⟩ ∧
    fastBridgeUnlockCall = ⟨.unlock, 300 * 10 ^ 12, 0⟩ ∧
    fastBridgeWithdrawCall = ⟨.withdraw, 20 * 10 ^ 12, 0⟩ :=
  ⟨rfl, fun _ => rfl, rfl, rfl, rfl, rfl, rfl, rfl, rfl, rfl, rfl⟩

end Bridge

namespace Bridge

/-! ## Account-id handling in `near_rpc_client::change` (C9)

`change` builds the transaction with
`receiver_id: receiver_id.parse().unwrap()`: an unparseable receiver id
panics (aborts) instead of returning an error, although the function
returns `Result` and every other account-id parse in the connectors maps
failure to `ConfigError`.  NEAR account-id validity (the
`near_primitives::types::AccountId` rules): 2 to 64 bytes, lowercase
alphanumerics and the separators `-`, `_`, `.`, starting and ending with
an alphanumeric, with no two consecutive separators. -/

/-- Lowercase letter or digit. -/
def isLowerAlnum (b : Nat) : Bool :=
  (97 ≤ b && b ≤ 122) || (48 ≤ b && b ≤ 57)

/-- One of the separators `-`, `_`, `.`. -/
def isSeparatorByte (b : Nat) : Bool :=
  b == 45 || b == 95 || b == 46

/-- No two adjacent separator bytes. -/
def noDoubleSeparators : Bytes → Bool
  | [] => true
  | [_] => true
  | a :: b :: rest =>
    !(isSeparatorByte a && isSeparatorByte b) && noDoubleSeparators (b :: rest)

/-- The NEAR account-id validity predicate. -/
def validAccountId (s : Bytes) : Bool :=
  decide (2 ≤ s.length) && decide (s.length ≤ 64) &&
    s.all (fun b => isLowerAlnum b || isSeparatorByte b) &&
    isLowerAlnum (s.headD 0) && isLowerAlnum (s.getLast?.getD 0) &&
    noDoubleSeparators s

/-- `AccountId::from_str`: the id when valid. -/
def parseAccountId (s : Bytes) : Option AccountId :=
  if validAccountId s then some s else none

/-- What `change` does with its `receiver_id`: a panic (process abort) or
a broadcast transaction to the parsed receiver. -/
inductive ChangeResult where
  | panicked
  | broadcast (receiver : AccountId)
deriving DecidableEq

/-- The receiver-id handling of `near_rpc_client::change`:
`receiver_id.parse().unwrap()` — `None` panics; nonce fetch, signing and
broadcast are elided, a successful parse proceeds to the broadcast. -/
def change (receiver_id : Bytes) : ChangeResult :=
  match parseAccountId receiver_id with
  | none => .panicked
  | some a => .broadcast a

/-- The UTF-8 bytes of `INVALID` — uppercase, not a NEAR account id. -/
def invalidReceiverId : Bytes := [73, 78, 86, 65, 76, 73, 68]

/-- The UTF-8 bytes of `a.near`. -/
def validReceiverId : Bytes := [97, 46, 110, 101, 97, 114]

/-- C9: evaluated at the failing input, `change` panics instead of
returning an error — `receiver_id.parse().unwrap()` aborts on any
unparseable receiver id (reachable e.g. from `FastBridge::lp_unlock`,
which passes the configured fast-bridge account id to `change`
unvalidated), while a valid id proceeds to the broadcast. -/
theorem C9_change_panics_on_unparseable_receiver :
    parseAccountId invalidReceiverId = none ∧
    change invalidReceiverId = .panicked ∧
    change validReceiverId = .broadcast validReceiverId :=
  ⟨by decide, by decide, by decide⟩

end Bridge

namespace Bridge.FastBridge

/-! ## Fast bridge: pending transfers without a claim height (C10)

`FastBridge::complete_transfer_on_eth` and `FastBridge::unlock` both fetch
the `PendingTransfer` by nonce (a `(AccountId, TransferMessage)` pair) and
read `valid_till_block_height.ok_or(BridgeSdkError::UnknownError)?` while
building the arguments of the next step — before `transfer_tokens(...)
.send()` on EVM, and before `eth_proof::get_storage_proof`, respectively.
An absent height therefore errors out with no EVM submission and no
storage-proof request. -/

/-- Fast-bridge transfer data, EVM side (`TransferDataEthereum` in
`types.rs`). -/
structure TransferDataEthereum where
  token_near : AccountId
  token_eth : Bytes
  amount : Nat
deriving DecidableEq

/-- Fast-bridge fee data, NEAR side (`TransferDataNear` in `types.rs`). -/
structure TransferDataNear where
  token : AccountId
  amount : Nat
deriving DecidableEq

/-- The fast-bridge transfer message (`TransferMessage` in `types.rs`). -/
structure TransferMessage where
  valid_till : Nat
  transfer : TransferDataEthereum
  fee : TransferDataNear
  recipient : Bytes
  valid_till_block_height : Option Nat
  aurora_sender : Option Bytes
deriving DecidableEq

/-- Side effects of a fast-bridge operation: EVM transactions submitted,
storage proofs requested (contract address, slot key, block height), and
NEAR transactions submitted. -/
structure Effects where
  evmActions : List EvmAction
  storageProofRequests : List (Bytes × Bytes × Nat)
  nearCalls : List NearCallParams
deriving DecidableEq

/-- No side effects. -/
def noEffects : Effects := ⟨[], [], []⟩

/-- Environment: the parsed `get_pending_transfer` response, the
configured fast-bridge EVM address, and the storage-proof endpoint. -/
structure Env where
  pendingTransfer : AccountId × TransferMessage
  fastBridgeAddress : Bytes
  getStorageProof : Bytes → Nat → Except BridgeSdkError Bytes

/-- `FastBridge::complete_transfer_on_eth`: destructure the pending
transfer and submit `transferTokens(token, recipient, nonce, amount,
unlock_recipient, valid_till_block_height)` with `msg.value = amount`; an
absent height is `UnknownError` before any submission. -/
def complete_transfer_on_eth (env : Env) (nonce : Nat)
    (unlock_recipient : Bytes) : Except BridgeSdkError TxHash × Effects :=
  let pt := env.pendingTransfer.2
  match pt.valid_till_block_height with
  | none => (.error .unknownError, noEffects)
  | some h =>
    (.ok 0, { noEffects with
      evmActions := [.transferTokens pt.transfer.token_eth pt.recipient
        nonce pt.transfer.amount unlock_recipient h pt.transfer.amount] })

/-- `FastBridge::unlock`: compute the storage slot from the pending
transfer, fetch the storage proof at `valid_till_block_height`, and
submit the locker `unlock` call on NEAR; an absent height is
`UnknownError` before the proof request. -/
def unlock (env : Env) (nonce : Nat) : Except BridgeSdkError TxHash × Effects :=
  let pt := env.pendingTransfer.2
  let slot := get_fast_bridge_transfer_storage_key pt.transfer.token_eth
    pt.recipient nonce pt.transfer.amount
  match pt.valid_till_block_height with
  | none => (.error .unknownError, noEffects)
  | some h =>
    match env.getStorageProof slot h with
    | .error e => (.error e, { noEffects with
        storageProofRequests := [(env.fastBridgeAddress, slot, h)] })
    | .ok _ => (.ok 0, { noEffects with
        storageProofRequests := [(env.fastBridgeAddress, slot, h)]
        nearCalls := [fastBridgeUnlockCall] })

/-- C10: when the fetched pending transfer has no
`valid_till_block_height`, both `complete_transfer_on_eth` and `unlock`
return an error (`UnknownError`) with no EVM transaction submitted and no
storage proof requested. -/
theorem C10_absent_height_errors_without_effects
    (env : Env) (nonce : Nat) (unlock_recipient : Bytes)
    (hnone : env.pendingTransfer.2.valid_till_block_height = none) :
    complete_transfer_on_eth env nonce unlock_recipient =
      (.error .unknownError, noEffects) ∧
    unlock env nonce = (.error .unknownError, noEffects) := by
  constructor
  · simp [complete_transfer_on_eth, hnone]
  · simp [unlock, hnone]

/-- A pending transfer without a claim height. -/
def heightlessEnv : Env where
  pendingTransfer :=
    ([97], { valid_till := 2000000000
             transfer := ⟨[117], List.replicate 20 10, 100⟩
             fee := ⟨[117], 1⟩
             recipient := List.replicate 20 11
             valid_till_block_height := none
             aurora_sender := none })
  fastBridgeAddress := List.replicate 20 12
  getStorageProof := fun _ _ => .ok []

/-- C10 witness: the theorem applied at a concrete heightless pending
transfer. -/
theorem C10_absent_height_witness :
    complete_transfer_on_eth heightlessEnv 7 [98] =
      (.error .unknownError, noEffects) ∧
    unlock heightlessEnv 7 = (.error .unknownError, noEffects) :=
  C10_absent_height_errors_without_effects heightlessEnv 7 [98] rfl

end Bridge.FastBridge
